import Mathlib

/-!
Shallow embedding of the device-state reconciliation core of the
`crestron_home` Home Assistant integration, together with proofs checking
the natural-language specification against it.

Python strings are modelled as lists of characters (`PyStr`); `str.lower`
is modelled with `Char.toLower`, which agrees with Python on the ASCII
range used throughout the integration.  Python dictionaries are modelled
as insertion-ordered association lists (`dictGet` / `dictSet`).  The raw
JSON maps returned by the out-of-scope API client are modelled by the
record type `RawRecord` holding exactly the keys the manager reads.
Wall-clock timestamps (`datetime.now()`) are modelled by a `Nat` poll time
passed explicitly to the polling functions.
-/

namespace CrestronHome

/-- Python strings, modelled as lists of characters. -/
abbrev PyStr := List Char

/-- Python `str.lower()` (`Char.toLower` agrees with Python on ASCII). -/
def pyLower (s : PyStr) : PyStr := s.map Char.toLower

/-- Python `s.startswith(p)`. -/
def pyStartsWith : PyStr → PyStr → Bool
  | _, [] => true
  | [], _ :: _ => false
  | c :: s, p :: ps => c == p && pyStartsWith s ps

/-- Python `s.endswith(p)`. -/
def pyEndsWith (s p : PyStr) : Bool := pyStartsWith s.reverse p.reverse

/-- Python `sub in s` (substring containment). -/
def listContains (s sub : PyStr) : Bool :=
  match s with
  | [] => sub.isEmpty
  | _ :: t => pyStartsWith s sub || listContains t sub

/-- Python `s.strip()`: drop whitespace from both ends. -/
def pyStrip (s : PyStr) : PyStr :=
  ((s.dropWhile Char.isWhitespace).reverse.dropWhile Char.isWhitespace).reverse

/-- Lookup in an insertion-ordered association list (Python `dict` read). -/
def dictGet [DecidableEq α] : List (α × β) → α → Option β
  | [], _ => none
  | (k, v) :: rest, key => if key = k then some v else dictGet rest key

/-- Python `dict` assignment: replace the value in place when the key is
present (keeping its position), otherwise append the new binding. -/
def dictSet [DecidableEq α] (m : List (α × β)) (key : α) (v : β) : List (α × β) :=
  if (dictGet m key).isSome then
    m.map (fun p => if p.1 = key then (key, v) else p)
  else
    m ++ [(key, v)]

/-- Raw JSON map as fetched from the hub; `none` models an absent key.
Holds exactly the keys read by the device manager (room records use the
`id` and `name` keys). -/
structure RawRecord where
  id : Option Int := none
  type : Option PyStr := none
  subType : Option PyStr := none
  name : Option PyStr := none
  status : Option Bool := none
  level : Option Int := none
  position : Option Int := none
  connectionStatus : Option PyStr := none
  roomId : Option Int := none
  roomName : Option PyStr := none
  presence : Option PyStr := none
  door_status : Option PyStr := none
  battery_level : Option PyStr := none
deriving DecidableEq, Inhabited

/-- The `CrestronDevice` dataclass from `models.py`.  `ha_state` is the
tri-state `True` / `False` / `None`, modelled as `Option Bool`;
`last_updated` is the poll time at which the device was last touched. -/
@[ext]
structure CrestronDevice where
  id : Int
  room : PyStr
  name : PyStr
  type : PyStr
  subtype : PyStr
  status : Bool := false
  level : Int := 0
  connection : PyStr := "online".toList
  last_updated : Nat
  ha_state : Option Bool := some true
  ha_hidden : Bool := false
  ha_reason : PyStr := []
  room_id : Option Int := none
  position : Int := 0
  value : Option Int := none
  unit : PyStr := []
  battery_level : PyStr := []
  presence : PyStr := []
  door_status : PyStr := []
  raw_data : RawRecord := {}
deriving DecidableEq

/-- Derived `full_name` property: room + name, but the room prefix is
omitted when the name already starts with it (case-insensitively). -/
def CrestronDevice.full_name (d : CrestronDevice) : PyStr :=
  if !d.room.isEmpty && pyStartsWith (pyLower d.name) (pyLower d.room) then
    pyStrip d.name
  else
    pyStrip (d.room ++ ' ' :: d.name)

/-- Derived `is_available` property. -/
def CrestronDevice.is_available (d : CrestronDevice) : Bool :=
  d.connection ≠ "offline".toList

/-- Platform-type tag `light`. -/
def DEVICE_TYPE_LIGHT : PyStr := "light".toList

/-- Platform-type tag `shade`. -/
def DEVICE_TYPE_SHADE : PyStr := "shade".toList

/-- Platform-type tag `scene`. -/
def DEVICE_TYPE_SCENE : PyStr := "scene".toList

/-- Platform-type tag `binary_sensor`. -/
def DEVICE_TYPE_BINARY_SENSOR : PyStr := "binary_sensor".toList

/-- Platform-type tag `sensor`. -/
def DEVICE_TYPE_SENSOR : PyStr := "sensor".toList

/-- Platform-type tag `thermostat`. -/
def DEVICE_TYPE_THERMOSTAT : PyStr := "thermostat".toList

/-- Subtype tag `OccupancySensor`. -/
def DEVICE_SUBTYPE_OCCUPANCY_SENSOR : PyStr := "OccupancySensor".toList

/-- Subtype tag `DoorSensor`. -/
def DEVICE_SUBTYPE_DOOR_SENSOR : PyStr := "DoorSensor".toList

/-- Subtype tag `PhotoSensor`. -/
def DEVICE_SUBTYPE_PHOTO_SENSOR : PyStr := "PhotoSensor".toList

/-- The static Crestron-type to platform-type table built in `__init__`. -/
def device_type_mapping : List (PyStr × PyStr) :=
  [("Dimmer".toList, DEVICE_TYPE_LIGHT),
   ("Switch".toList, DEVICE_TYPE_LIGHT),
   ("Shade".toList, DEVICE_TYPE_SHADE),
   ("Scene".toList, DEVICE_TYPE_SCENE),
   ("OccupancySensor".toList, DEVICE_TYPE_BINARY_SENSOR),
   ("DoorSensor".toList, DEVICE_TYPE_BINARY_SENSOR),
   ("PhotoSensor".toList, DEVICE_TYPE_SENSOR),
   ("Thermostat".toList, DEVICE_TYPE_THERMOSTAT)]

/-- Python `a or b` where `a` is an optional string and `b` a string
(an absent or empty string falls through to `b`). -/
def pyOrStr (a : Option PyStr) (b : PyStr) : PyStr :=
  match a with
  | some s => if s.isEmpty then b else s
  | none => b

/-- Python `a or b` on two optional strings (dictionary lookups). -/
def pyOrOpt (a b : Option PyStr) : Option PyStr :=
  match a with
  | some s => if s.isEmpty then b else some s
  | none => b

/-- Python truthiness of an optional string. -/
def pyTruthyOpt (o : Option PyStr) : Bool :=
  match o with
  | none => false
  | some s => !s.isEmpty

/-- The manager configuration: enabled platform types and ignored-name
patterns, as passed to `CrestronDeviceManager.__init__`. -/
structure ManagerConfig where
  enabled_device_types : List PyStr
  ignored_device_names : List PyStr
deriving DecidableEq

/-- The body of the pattern loop of `_matches_ignored_pattern` for one
configured pattern (`name` and `device_type` are already lowercased). -/
def matchesOnePattern (name device_type pat : PyStr) : Bool :=
  let p := pyLower pat
  if pyStartsWith p ['%'] && pyEndsWith p ['%'] then
    let search_term := (p.drop 1).dropLast
    listContains name search_term || listContains device_type search_term
  else if pyStartsWith p ['%'] then
    pyEndsWith name (p.drop 1) || pyEndsWith device_type (p.drop 1)
  else if pyEndsWith p ['%'] then
    pyStartsWith name p.dropLast || pyStartsWith device_type p.dropLast
  else
    name == p || device_type == p

/-- `CrestronDeviceManager._matches_ignored_pattern`: `%`-wildcard
matching of a device name or type against the configured patterns. -/
def _matches_ignored_pattern (ignored_device_names : List PyStr)
    (name device_type : PyStr) : Bool :=
  if ignored_device_names.isEmpty then false
  else
    ignored_device_names.any
      (matchesOnePattern (pyLower name) (pyLower device_type))

/-- `CrestronDeviceManager._get_ha_device_type`: map a Crestron type and
subtype to a platform type; the subtype takes precedence, and `Scene`
always maps to the scene platform. -/
def _get_ha_device_type (device_type subtype : PyStr) : Option PyStr :=
  let ha_type := pyOrOpt (dictGet device_type_mapping subtype)
    (dictGet device_type_mapping device_type)
  if device_type = "Scene".toList ∨ subtype = "Scene".toList then
    some DEVICE_TYPE_SCENE
  else
    ha_type

/-- `CrestronDeviceManager._update_ha_parameters`: classification of a
device into hidden / availability / reason, run after every raw update. -/
def _update_ha_parameters (cfg : ManagerConfig) (d : CrestronDevice) :
    CrestronDevice :=
  let ha_device_type := _get_ha_device_type d.type d.subtype
  if _matches_ignored_pattern cfg.ignored_device_names d.full_name d.type then
    { d with ha_hidden := true, ha_state := none,
             ha_reason := "Device hidden by name filter".toList }
  else if pyTruthyOpt ha_device_type &&
      !(decide ((ha_device_type.getD []) ∈ cfg.enabled_device_types)) then
    { d with ha_hidden := true, ha_state := none,
             ha_reason := "Device hidden by category filter".toList }
  else
    let d := { d with ha_hidden := false }
    if d.connection = "offline".toList then
      { d with ha_state := some false, ha_reason := "Device is offline".toList }
    else
      { d with ha_state := some true, ha_reason := [] }

/-- The device table: composite `"namespace:id"` key to device, in
insertion order (Python `dict`). -/
abbrev Table := List (PyStr × CrestronDevice)

/-- Composite key `f"device:{device_id}"`. -/
def deviceKey (device_id : Int) : PyStr := "device:".toList ++ (toString device_id).toList

/-- Composite key `f"sensor:{sensor_id}"`. -/
def sensorKey (sensor_id : Int) : PyStr := "sensor:".toList ++ (toString sensor_id).toList

/-- Composite key `f"thermostat:{tstat_id}"`. -/
def thermostatKey (tstat_id : Int) : PyStr :=
  "thermostat:".toList ++ (toString tstat_id).toList

/-- The `subType or type` expression selecting the working type of a raw
general-device record. -/
def deviceTypeOf (r : RawRecord) : PyStr := pyOrStr r.subType (r.type.getD [])

/-- Mutation of an existing device by the update branch of
`_process_devices` (before re-classification). -/
def updateDeviceFrom (now : Nat) (r : RawRecord) (device : CrestronDevice) :
    CrestronDevice :=
  let device_type := deviceTypeOf r
  let device :=
    { device with
      status := r.status.getD false,
      level := r.level.getD 0,
      connection :=
        if device_type = "Scene".toList then "n/a".toList
        else r.connectionStatus.getD ("online".toList),
      last_updated := now }
  let device :=
    if device_type = "Shade".toList then
      { device with position := r.position.getD 0 }
    else device
  { device with raw_data := r }

/-- Construction of a new device by the create branch of
`_process_devices` (before classification). -/
def createDeviceFrom (now : Nat) (device_id : Int) (r : RawRecord) :
    CrestronDevice :=
  let device_type := deviceTypeOf r
  { id := device_id,
    room := r.roomName.getD [],
    name := r.name.getD [],
    type := device_type,
    subtype := device_type,
    status := r.status.getD false,
    level := r.level.getD 0,
    connection :=
      if device_type = "Scene".toList then "n/a".toList
      else r.connectionStatus.getD ("online".toList),
    room_id := r.roomId,
    position := if device_type = "Shade".toList then r.position.getD 0 else 0,
    raw_data := r,
    last_updated := now }

/-- One iteration of the loop of `_process_devices`: records with a falsy
id (absent or `0`) are skipped. -/
def processOneDevice (cfg : ManagerConfig) (now : Nat) (tbl : Table)
    (r : RawRecord) : Table :=
  match r.id with
  | none => tbl
  | some device_id =>
    if device_id = 0 then tbl
    else
      let dev_key := deviceKey device_id
      match dictGet tbl dev_key with
      | some device =>
        dictSet tbl dev_key (_update_ha_parameters cfg (updateDeviceFrom now r device))
      | none =>
        dictSet tbl dev_key
          (_update_ha_parameters cfg (createDeviceFrom now device_id r))

/-- `CrestronDeviceManager._process_devices`. -/
def _process_devices (cfg : ManagerConfig) (now : Nat) (tbl : Table)
    (devices_data : List RawRecord) : Table :=
  devices_data.foldl (processOneDevice cfg now) tbl

/-- The room-id to room-name lookup built once per poll from the client's
cached room list (a Python dict comprehension, last binding wins). -/
abbrev RoomLookup := List (Option Int × PyStr)

/-- Resolution `self._room_lookup.get(room_id, "") if room_id else ""`. -/
def roomNameFromLookup (room_lookup : RoomLookup) (room_id : Option Int) : PyStr :=
  match room_id with
  | some rid => if rid = 0 then [] else (dictGet room_lookup (some rid)).getD []
  | none => []

/-- The sensor-subtype-specific field updates shared by both branches of
`_process_sensors`. -/
def applySensorFields (sensor_type : PyStr) (s : RawRecord)
    (sensor : CrestronDevice) : CrestronDevice :=
  if sensor_type = DEVICE_SUBTYPE_OCCUPANCY_SENSOR then
    { sensor with
      presence := s.presence.getD ("Unavailable".toList),
      status := decide (s.presence.getD ("Unavailable".toList) ∉
        [("Vacant".toList : PyStr), "Unavailable".toList]) }
  else if sensor_type = DEVICE_SUBTYPE_DOOR_SENSOR then
    { sensor with
      door_status := s.door_status.getD ("Closed".toList),
      battery_level := s.battery_level.getD ("Normal".toList),
      status := decide (s.door_status.getD ("Closed".toList) = "Open".toList) }
  else if sensor_type = DEVICE_SUBTYPE_PHOTO_SENSOR then
    { sensor with value := some (s.level.getD 0), level := s.level.getD 0 }
  else sensor

/-- One iteration of the loop of `_process_sensors`: records with a falsy
id (absent or `0`) are skipped. -/
def processOneSensor (cfg : ManagerConfig) (now : Nat)
    (room_lookup : RoomLookup) (tbl : Table) (s : RawRecord) : Table :=
  match s.id with
  | none => tbl
  | some sensor_id =>
    if sensor_id = 0 then tbl
    else
      let sensor_type := s.subType.getD []
      let dev_key := sensorKey sensor_id
      let room_id := s.roomId
      let room_name := roomNameFromLookup room_lookup room_id
      match dictGet tbl dev_key with
      | some sensor =>
        let sensor :=
          { sensor with
            connection := s.connectionStatus.getD ("online".toList),
            last_updated := now }
        let sensor := applySensorFields sensor_type s sensor
        dictSet tbl dev_key (_update_ha_parameters cfg { sensor with raw_data := s })
      | none =>
        let sensor : CrestronDevice :=
          { id := sensor_id,
            room := room_name,
            name := s.name.getD [],
            type := sensor_type,
            subtype := sensor_type,
            connection := s.connectionStatus.getD ("online".toList),
            room_id := room_id,
            raw_data := s,
            last_updated := now }
        let sensor := applySensorFields sensor_type s sensor
        dictSet tbl dev_key (_update_ha_parameters cfg sensor)

/-- `CrestronDeviceManager._process_sensors`. -/
def _process_sensors (cfg : ManagerConfig) (now : Nat)
    (room_lookup : RoomLookup) (tbl : Table)
    (sensors_data : List RawRecord) : Table :=
  sensors_data.foldl (processOneSensor cfg now room_lookup) tbl

/-- One iteration of the loop of `_process_thermostats`: only a record
whose id is `None` is skipped (an id of `0` is processed). -/
def processOneThermostat (cfg : ManagerConfig) (now : Nat)
    (room_lookup : RoomLookup) (tbl : Table) (t : RawRecord) : Table :=
  match t.id with
  | none => tbl
  | some tstat_id =>
    let dev_key := thermostatKey tstat_id
    let room_id := t.roomId
    let room_name := roomNameFromLookup room_lookup room_id
    match dictGet tbl dev_key with
    | some device =>
      dictSet tbl dev_key
        (_update_ha_parameters cfg
          { device with
            type := "Thermostat".toList,
            subtype := "Thermostat".toList,
            connection := t.connectionStatus.getD ("online".toList),
            raw_data := t,
            last_updated := now })
    | none =>
      dictSet tbl dev_key
        (_update_ha_parameters cfg
          { id := tstat_id,
            room := room_name,
            name := t.name.getD ("Thermostat".toList),
            type := "Thermostat".toList,
            subtype := "Thermostat".toList,
            connection := t.connectionStatus.getD ("online".toList),
            room_id := room_id,
            raw_data := t,
            last_updated := now })

/-- `CrestronDeviceManager._process_thermostats`. -/
def _process_thermostats (cfg : ManagerConfig) (now : Nat)
    (room_lookup : RoomLookup) (tbl : Table)
    (thermostats_data : List RawRecord) : Table :=
  thermostats_data.foldl (processOneThermostat cfg now room_lookup) tbl

/-- The lightweight change-detection tuple `_device_snapshot_tuple`
(`_CHANGE_FIELDS = status, level, position, connection, presence,
door_status`). -/
def _device_snapshot_tuple (d : CrestronDevice) :
    Bool × Int × Int × PyStr × PyStr × PyStr :=
  (d.status, d.level, d.position, d.connection, d.presence, d.door_status)

/-- The transport-layer error (`CrestronApiError`) raised by the API
client collaborator. -/
structure ApiError where
  msg : PyStr
deriving DecidableEq

/-- The change events emitted by the change-detection pass of
`poll_devices` (log-level observability): discovered keys, changed keys,
and removed keys with their last known name. -/
structure PollEvents where
  discovered : List PyStr
  changed : List PyStr
  removed : List (PyStr × PyStr)
deriving DecidableEq

/-- Change detection of `poll_devices`: runs only when the pre-poll
snapshot is non-empty; diffs old and new tuples by key. -/
def computeEvents (prev_snapshot : List (PyStr × (Bool × Int × Int × PyStr × PyStr × PyStr)))
    (prev_names : List (PyStr × PyStr)) (tbl : Table) : PollEvents :=
  if prev_snapshot.isEmpty then ⟨[], [], []⟩
  else
    { discovered := (tbl.filter (fun p => (dictGet prev_snapshot p.1).isNone)).map (·.1),
      changed := (tbl.filter (fun p =>
        match dictGet prev_snapshot p.1 with
        | some prev => decide (_device_snapshot_tuple p.2 ≠ prev)
        | none => false)).map (·.1),
      removed := (prev_snapshot.filter (fun p => (dictGet tbl p.1).isNone)).map
        (fun p => (p.1, (dictGet prev_names p.1).getD ("unknown".toList))) }

/-- The grouped snapshot: platform-type tag to (numeric id to device). -/
abbrev Snapshot := List (PyStr × List (Int × CrestronDevice))

/-- Grouping of the device table by computed platform type into the fixed
pre-initialized snapshot map. -/
def buildSnapshot (tbl : Table) : Snapshot :=
  let init : Snapshot :=
    [(DEVICE_TYPE_LIGHT, []), (DEVICE_TYPE_SHADE, []), (DEVICE_TYPE_SCENE, []),
     (DEVICE_TYPE_BINARY_SENSOR, []), (DEVICE_TYPE_SENSOR, []),
     (DEVICE_TYPE_THERMOSTAT, [])]
  tbl.foldl (fun acc p =>
    let device := p.2
    let ha_device_type := _get_ha_device_type device.type device.subtype
    if pyTruthyOpt ha_device_type &&
        (dictGet acc (ha_device_type.getD [])).isSome then
      dictSet acc (ha_device_type.getD [])
        (dictSet ((dictGet acc (ha_device_type.getD [])).getD []) device.id device)
    else acc) init

/-- The mutable state of a `CrestronDeviceManager` instance. -/
structure ManagerState where
  devices : Table
  room_lookup : RoomLookup
  last_poll_time : Option Nat
deriving DecidableEq

/-- The initial manager state built by `__init__`. -/
def initialState : ManagerState := ⟨[], [], none⟩

/-- The fan-in of `asyncio.gather`: the poll awaits the general-device and
sensor fetches, and the thermostat fetch only when that platform is
enabled; the first failure propagates. -/
def gatherFetches (fetch_thermostats : Bool)
    (devices_res sensors_res thermostats_res : Except ApiError (List RawRecord)) :
    Except ApiError (List RawRecord × List RawRecord × List RawRecord) :=
  match devices_res with
  | .error e => .error e
  | .ok devices_data =>
    match sensors_res with
    | .error e => .error e
    | .ok sensors_data =>
      if fetch_thermostats then
        match thermostats_res with
        | .error e => .error e
        | .ok thermostats_data => .ok (devices_data, sensors_data, thermostats_data)
      else .ok (devices_data, sensors_data, [])

/-- The room lookup dict comprehension of `poll_devices`. -/
def buildRoomLookup (rooms : List RawRecord) : RoomLookup :=
  rooms.foldl (fun acc r => dictSet acc r.id (r.name.getD [])) []

/-- `CrestronDeviceManager.poll_devices`.  The fetch results of the API
client are passed in as `Except` values; the returned pair is the manager
state after the call (unchanged when the poll raises) together with the
returned grouped snapshot and the emitted change events, or the
propagated error. -/
def poll_devices (cfg : ManagerConfig) (now : Nat) (st : ManagerState)
    (rooms : List RawRecord)
    (devices_res sensors_res thermostats_res : Except ApiError (List RawRecord)) :
    ManagerState × Except ApiError (Snapshot × PollEvents) :=
  let prev_snapshot := st.devices.map (fun p => (p.1, _device_snapshot_tuple p.2))
  let prev_names := st.devices.map (fun p => (p.1, p.2.full_name))
  let fetch_thermostats : Bool := DEVICE_TYPE_THERMOSTAT ∈ cfg.enabled_device_types
  match gatherFetches fetch_thermostats devices_res sensors_res thermostats_res with
  | .error e => (st, .error e)
  | .ok (devices_data, sensors_data, thermostats_data) =>
    let room_lookup := buildRoomLookup rooms
    let tbl := _process_devices cfg now st.devices devices_data
    let tbl := _process_sensors cfg now room_lookup tbl sensors_data
    let tbl :=
      if thermostats_data.isEmpty then tbl
      else _process_thermostats cfg now room_lookup tbl thermostats_data
    let events := computeEvents prev_snapshot prev_names tbl
    let snapshot := buildSnapshot tbl
    ({ devices := tbl, room_lookup := room_lookup, last_poll_time := some now },
     .ok (snapshot, events))

/-! ### Association-list (Python dict) lemmas -/

theorem dictGet_nil [DecidableEq α] (k : α) :
    dictGet ([] : List (α × β)) k = none := rfl

theorem dictGet_cons [DecidableEq α] (a1 : α) (a2 : β) (t : List (α × β)) (k : α) :
    dictGet ((a1, a2) :: t) k = if k = a1 then some a2 else dictGet t k := rfl

theorem dictGet_map_ne [DecidableEq α] (m : List (α × β)) (k k' : α) (v : β)
    (h : k' ≠ k) :
    dictGet (m.map (fun p => if p.1 = k then (k, v) else p)) k' = dictGet m k' := by
  induction m with
  | nil => rfl
  | cons a t ih =>
    cases a with
    | mk a1 a2 =>
      simp only [List.map_cons]
      by_cases ha : a1 = k
      · subst ha
        rw [if_pos rfl, dictGet_cons, dictGet_cons, if_neg h, if_neg h, ih]
      · rw [if_neg ha, dictGet_cons, dictGet_cons, ih]

theorem dictGet_map_self [DecidableEq α] (m : List (α × β)) (k : α) (v : β)
    (h : (dictGet m k).isSome) :
    dictGet (m.map (fun p => if p.1 = k then (k, v) else p)) k = some v := by
  induction m with
  | nil => simp [dictGet] at h
  | cons a t ih =>
    cases a with
    | mk a1 a2 =>
      simp only [List.map_cons]
      by_cases ha : a1 = k
      · subst ha
        rw [if_pos rfl, dictGet_cons, if_pos rfl]
      · have hne : k ≠ a1 := fun hh => ha hh.symm
        rw [dictGet_cons, if_neg hne] at h
        rw [if_neg ha, dictGet_cons, if_neg hne, ih h]

theorem dictGet_append [DecidableEq α] (m l : List (α × β)) (k : α) :
    dictGet (m ++ l) k =
      match dictGet m k with
      | some v => some v
      | none => dictGet l k := by
  induction m with
  | nil => rfl
  | cons a t ih =>
    cases a with
    | mk a1 a2 =>
      by_cases ha : k = a1
      · rw [List.cons_append, dictGet_cons, dictGet_cons, if_pos ha, if_pos ha]
      · rw [List.cons_append, dictGet_cons, dictGet_cons, if_neg ha, if_neg ha, ih]

theorem dictGet_dictSet [DecidableEq α] (m : List (α × β)) (k k' : α) (v : β) :
    dictGet (dictSet m k v) k' = if k' = k then some v else dictGet m k' := by
  unfold dictSet
  by_cases h : (dictGet m k).isSome
  · rw [if_pos h]
    by_cases hk : k' = k
    · subst hk; rw [if_pos rfl, dictGet_map_self m k' v h]
    · rw [if_neg hk, dictGet_map_ne m k k' v hk]
  · rw [if_neg h, dictGet_append]
    have hnone : dictGet m k = none := by
      cases hm : dictGet m k with
      | none => rfl
      | some w => rw [hm] at h; simp at h
    by_cases hk : k' = k
    · subst hk; rw [hnone]; simp [dictGet]
    · cases hm : dictGet m k' with
      | none => simp [dictGet, if_neg hk]
      | some w => simp [if_neg hk]

theorem dictGet_isSome_dictSet [DecidableEq α] (m : List (α × β)) (k k' : α)
    (v : β) (h : (dictGet m k').isSome) :
    (dictGet (dictSet m k v) k').isSome := by
  rw [dictGet_dictSet]
  by_cases hk : k' = k
  · simp [hk]
  · simpa [hk] using h

theorem dictGet_map_value [DecidableEq α] (m : List (α × β)) (f : β → γ) (k : α) :
    dictGet (m.map (fun p => (p.1, f p.2))) k = (dictGet m k).map f := by
  induction m with
  | nil => rfl
  | cons a t ih =>
    cases a with
    | mk a1 a2 =>
      by_cases ha : k = a1
      · simp [dictGet, if_pos ha]
      · simp [dictGet, if_neg ha, ih]

theorem dictGet_eq_none_iff [DecidableEq α] (m : List (α × β)) (k : α) :
    dictGet m k = none ↔ k ∉ m.map Prod.fst := by
  induction m with
  | nil => simp [dictGet]
  | cons a t ih =>
    cases a with
    | mk a1 a2 =>
      by_cases ha : k = a1
      · simp [dictGet, if_pos ha, ha]
      · simp [dictGet, if_neg ha, ih, ha]

theorem keys_dictSet_of_isSome [DecidableEq α] (m : List (α × β)) (k : α) (v : β)
    (h : (dictGet m k).isSome) :
    (dictSet m k v).map Prod.fst = m.map Prod.fst := by
  unfold dictSet
  rw [if_pos h, List.map_map]
  refine List.map_congr_left (fun p _ => ?_)
  by_cases hp : p.1 = k
  · simp [hp]
  · simp [hp]

theorem keys_dictSet_of_none [DecidableEq α] (m : List (α × β)) (k : α) (v : β)
    (h : ¬ (dictGet m k).isSome) :
    (dictSet m k v).map Prod.fst = m.map Prod.fst ++ [k] := by
  unfold dictSet
  rw [if_neg h, List.map_append]
  rfl

theorem nodupKeys_dictSet [DecidableEq α] (m : List (α × β)) (k : α) (v : β)
    (h : (m.map Prod.fst).Nodup) : ((dictSet m k v).map Prod.fst).Nodup := by
  by_cases hs : (dictGet m k).isSome
  · rwa [keys_dictSet_of_isSome m k v hs]
  · rw [keys_dictSet_of_none m k v hs]
    have hk : k ∉ m.map Prod.fst := by
      rw [← dictGet_eq_none_iff]
      cases hm : dictGet m k with
      | none => rfl
      | some w => rw [hm] at hs; simp at hs
    simp [List.nodup_append, h, hk]

theorem dictGet_of_mem_nodup [DecidableEq α] (m : List (α × β)) (k : α) (v : β)
    (hn : (m.map Prod.fst).Nodup) (hm : (k, v) ∈ m) : dictGet m k = some v := by
  induction m with
  | nil => simp at hm
  | cons a t ih =>
    cases a with
    | mk a1 a2 =>
      rcases List.mem_cons.mp hm with h | h
      · cases h; simp [dictGet]
      · have hk : k ≠ a1 := by
          intro hk
          subst hk
          exact (List.nodup_cons.mp hn).1 (List.mem_map.mpr ⟨(k, v), h, rfl⟩)
        simp only [dictGet, if_neg hk]
        exact ih (List.nodup_cons.mp hn).2 h

theorem ne_nil_of_dictGet_isSome [DecidableEq α] (m : List (α × β)) (k : α)
    (h : (dictGet m k).isSome) : m ≠ [] := by
  intro he
  subst he
  simp [dictGet] at h

/-! ### Composite-key helpers and processor locality -/

/-- The composite key written by `_process_devices` for a raw record, or
`none` when the record is skipped (absent or falsy id). -/
def deviceRecordKey? (r : RawRecord) : Option PyStr :=
  match r.id with
  | none => none
  | some i => if i = 0 then none else some (deviceKey i)

/-- The composite key written by `_process_sensors` for a raw record, or
`none` when the record is skipped (absent or falsy id). -/
def sensorRecordKey? (r : RawRecord) : Option PyStr :=
  match r.id with
  | none => none
  | some i => if i = 0 then none else some (sensorKey i)

/-- The composite key written by `_process_thermostats` for a raw record,
or `none` when the record is skipped (only an absent id). -/
def thermostatRecordKey? (r : RawRecord) : Option PyStr :=
  match r.id with
  | none => none
  | some i => some (thermostatKey i)

theorem deviceKey_ne_sensorKey (i j : Int) : deviceKey i ≠ sensorKey j := by
  intro h
  have h2 := congrArg (fun l => l.headI) h
  simp [deviceKey, sensorKey] at h2

theorem deviceKey_ne_thermostatKey (i j : Int) : deviceKey i ≠ thermostatKey j := by
  intro h
  have h2 := congrArg (fun l => l.headI) h
  simp [deviceKey, thermostatKey] at h2

theorem dictGet_processOneDevice_ne (cfg : ManagerConfig) (now : Nat)
    (tbl : Table) (r : RawRecord) (k : PyStr)
    (h : deviceRecordKey? r ≠ some k) :
    dictGet (processOneDevice cfg now tbl r) k = dictGet tbl k := by
  unfold processOneDevice
  cases hid : r.id with
  | none => rfl
  | some i =>
    dsimp only
    by_cases hz : i = 0
    · rw [if_pos hz]
    · rw [if_neg hz]
      have hk : deviceKey i ≠ k := by
        intro he
        exact h (by simp [deviceRecordKey?, hid, hz, he])
      cases dictGet tbl (deviceKey i) with
      | some d => rw [dictGet_dictSet, if_neg (fun hh => hk hh.symm)]
      | none => rw [dictGet_dictSet, if_neg (fun hh => hk hh.symm)]

theorem dictGet_processOneSensor_ne (cfg : ManagerConfig) (now : Nat)
    (rl : RoomLookup) (tbl : Table) (r : RawRecord) (k : PyStr)
    (h : sensorRecordKey? r ≠ some k) :
    dictGet (processOneSensor cfg now rl tbl r) k = dictGet tbl k := by
  unfold processOneSensor
  cases hid : r.id with
  | none => rfl
  | some i =>
    dsimp only
    by_cases hz : i = 0
    · rw [if_pos hz]
    · rw [if_neg hz]
      have hk : sensorKey i ≠ k := by
        intro he
        exact h (by simp [sensorRecordKey?, hid, hz, he])
      cases dictGet tbl (sensorKey i) with
      | some d => rw [dictGet_dictSet, if_neg (fun hh => hk hh.symm)]
      | none => rw [dictGet_dictSet, if_neg (fun hh => hk hh.symm)]

theorem dictGet_processOneThermostat_ne (cfg : ManagerConfig) (now : Nat)
    (rl : RoomLookup) (tbl : Table) (r : RawRecord) (k : PyStr)
    (h : thermostatRecordKey? r ≠ some k) :
    dictGet (processOneThermostat cfg now rl tbl r) k = dictGet tbl k := by
  unfold processOneThermostat
  cases hid : r.id with
  | none => rfl
  | some i =>
    dsimp only
    have hk : thermostatKey i ≠ k := by
      intro he
      exact h (by simp [thermostatRecordKey?, hid, he])
    cases dictGet tbl (thermostatKey i) with
    | some d => rw [dictGet_dictSet, if_neg (fun hh => hk hh.symm)]
    | none => rw [dictGet_dictSet, if_neg (fun hh => hk hh.symm)]

theorem dictGet_processDevices_ne (cfg : ManagerConfig) (now : Nat)
    (ds : List RawRecord) (k : PyStr)
    (h : ∀ r ∈ ds, deviceRecordKey? r ≠ some k) :
    ∀ tbl, dictGet (_process_devices cfg now tbl ds) k = dictGet tbl k := by
  induction ds with
  | nil => intro tbl; rfl
  | cons a t ih =>
    intro tbl
    have ha := h a (List.mem_cons_self a t)
    have ht : ∀ r ∈ t, deviceRecordKey? r ≠ some k :=
      fun r hr => h r (List.mem_cons_of_mem a hr)
    calc dictGet (_process_devices cfg now (processOneDevice cfg now tbl a) t) k
        = dictGet (processOneDevice cfg now tbl a) k := ih ht _
      _ = dictGet tbl k := dictGet_processOneDevice_ne cfg now tbl a k ha

theorem dictGet_processSensors_ne (cfg : ManagerConfig) (now : Nat)
    (rl : RoomLookup) (ss : List RawRecord) (k : PyStr)
    (h : ∀ r ∈ ss, sensorRecordKey? r ≠ some k) :
    ∀ tbl, dictGet (_process_sensors cfg now rl tbl ss) k = dictGet tbl k := by
  induction ss with
  | nil => intro tbl; rfl
  | cons a t ih =>
    intro tbl
    have ha := h a (List.mem_cons_self a t)
    have ht : ∀ r ∈ t, sensorRecordKey? r ≠ some k :=
      fun r hr => h r (List.mem_cons_of_mem a hr)
    calc dictGet (_process_sensors cfg now rl (processOneSensor cfg now rl tbl a) t) k
        = dictGet (processOneSensor cfg now rl tbl a) k := ih ht _
      _ = dictGet tbl k := dictGet_processOneSensor_ne cfg now rl tbl a k ha

theorem dictGet_processThermostats_ne (cfg : ManagerConfig) (now : Nat)
    (rl : RoomLookup) (ts : List RawRecord) (k : PyStr)
    (h : ∀ r ∈ ts, thermostatRecordKey? r ≠ some k) :
    ∀ tbl, dictGet (_process_thermostats cfg now rl tbl ts) k = dictGet tbl k := by
  induction ts with
  | nil => intro tbl; rfl
  | cons a t ih =>
    intro tbl
    have ha := h a (List.mem_cons_self a t)
    have ht : ∀ r ∈ t, thermostatRecordKey? r ≠ some k :=
      fun r hr => h r (List.mem_cons_of_mem a hr)
    calc dictGet (_process_thermostats cfg now rl (processOneThermostat cfg now rl tbl a) t) k
        = dictGet (processOneThermostat cfg now rl tbl a) k := ih ht _
      _ = dictGet tbl k := dictGet_processOneThermostat_ne cfg now rl tbl a k ha

/-- A sensor record key never collides with a device key. -/
theorem sensorRecordKey_ne_deviceKey (r : RawRecord) (i : Int) :
    sensorRecordKey? r ≠ some (deviceKey i) := by
  unfold sensorRecordKey?
  cases r.id with
  | none => simp
  | some j =>
    by_cases hz : j = 0
    · simp [hz]
    · simp only [if_neg hz]
      intro h
      exact deviceKey_ne_sensorKey i j ((Option.some.injEq _ _).mp h).symm

/-- A thermostat record key never collides with a device key. -/
theorem thermostatRecordKey_ne_deviceKey (r : RawRecord) (i : Int) :
    thermostatRecordKey? r ≠ some (deviceKey i) := by
  unfold thermostatRecordKey?
  cases r.id with
  | none => simp
  | some j =>
    intro h
    exact deviceKey_ne_thermostatKey i j ((Option.some.injEq _ _).mp h).symm

/-! ### The value written by `_process_devices` at a given key -/

/-- The device value stored for a valid general-device record, as a
function of the table entry it found. -/
def pvalDevice (cfg : ManagerConfig) (now : Nat) (cur : Option CrestronDevice)
    (i : Int) (r : RawRecord) : CrestronDevice :=
  match cur with
  | some device => _update_ha_parameters cfg (updateDeviceFrom now r device)
  | none => _update_ha_parameters cfg (createDeviceFrom now i r)

theorem dictGet_processOneDevice_self (cfg : ManagerConfig) (now : Nat)
    (tbl : Table) (r : RawRecord) (i : Int) (hid : r.id = some i) (hz : i ≠ 0) :
    dictGet (processOneDevice cfg now tbl r) (deviceKey i) =
      some (pvalDevice cfg now (dictGet tbl (deviceKey i)) i r) := by
  unfold processOneDevice
  rw [hid]
  dsimp only
  rw [if_neg hz]
  cases hcur : dictGet tbl (deviceKey i) with
  | some d =>
    dsimp only
    rw [dictGet_dictSet, if_pos rfl]
    rfl
  | none =>
    dsimp only
    rw [dictGet_dictSet, if_pos rfl]
    rfl

theorem processDevices_at_key (cfg : ManagerConfig) (now : Nat)
    (ds : List RawRecord) (r : RawRecord) (i : Int)
    (hnodup : (ds.filterMap deviceRecordKey?).Nodup)
    (hr : r ∈ ds) (hid : r.id = some i) (hz : i ≠ 0) :
    ∀ tbl, dictGet (_process_devices cfg now tbl ds) (deviceKey i) =
      some (pvalDevice cfg now (dictGet tbl (deviceKey i)) i r) := by
  have hkey : deviceRecordKey? r = some (deviceKey i) := by
    simp [deviceRecordKey?, hid, hz]
  induction ds with
  | nil => cases hr
  | cons a t ih =>
    intro tbl
    rcases List.mem_cons.mp hr with h | h
    · subst h
      rw [List.filterMap_cons, hkey] at hnodup
      have hnotin := (List.nodup_cons.mp hnodup).1
      have hloc : ∀ r' ∈ t, deviceRecordKey? r' ≠ some (deviceKey i) := by
        intro r' hr' he
        exact hnotin (List.mem_filterMap.mpr ⟨r', hr', he⟩)
      show dictGet (_process_devices cfg now (processOneDevice cfg now tbl r) t)
        (deviceKey i) = _
      rw [dictGet_processDevices_ne cfg now t (deviceKey i) hloc _]
      exact dictGet_processOneDevice_self cfg now tbl r i hid hz
    · have hnodt : (t.filterMap deviceRecordKey?).Nodup := by
        rw [List.filterMap_cons] at hnodup
        cases hka : deviceRecordKey? a with
        | none => rw [hka] at hnodup; exact hnodup
        | some ka => rw [hka] at hnodup; exact (List.nodup_cons.mp hnodup).2
      have hka_ne : deviceRecordKey? a ≠ some (deviceKey i) := by
        intro hka
        rw [List.filterMap_cons, hka] at hnodup
        exact (List.nodup_cons.mp hnodup).1
          (List.mem_filterMap.mpr ⟨r, h, hkey⟩)
      show dictGet (_process_devices cfg now (processOneDevice cfg now tbl a) t)
        (deviceKey i) = _
      rw [ih hnodt h (processOneDevice cfg now tbl a),
        dictGet_processOneDevice_ne cfg now tbl a (deviceKey i) hka_ne]

/-! ### Key-set preservation through the processors -/

theorem nodupKeys_processOneDevice (cfg : ManagerConfig) (now : Nat)
    (tbl : Table) (r : RawRecord) (h : (tbl.map Prod.fst).Nodup) :
    ((processOneDevice cfg now tbl r).map Prod.fst).Nodup := by
  unfold processOneDevice
  cases r.id with
  | none => exact h
  | some i =>
    dsimp only
    by_cases hz : i = 0
    · rw [if_pos hz]; exact h
    · rw [if_neg hz]
      cases dictGet tbl (deviceKey i) with
      | some d => exact nodupKeys_dictSet _ _ _ h
      | none => exact nodupKeys_dictSet _ _ _ h

theorem nodupKeys_processOneSensor (cfg : ManagerConfig) (now : Nat)
    (rl : RoomLookup) (tbl : Table) (r : RawRecord)
    (h : (tbl.map Prod.fst).Nodup) :
    ((processOneSensor cfg now rl tbl r).map Prod.fst).Nodup := by
  unfold processOneSensor
  cases r.id with
  | none => exact h
  | some i =>
    dsimp only
    by_cases hz : i = 0
    · rw [if_pos hz]; exact h
    · rw [if_neg hz]
      cases dictGet tbl (sensorKey i) with
      | some d => exact nodupKeys_dictSet _ _ _ h
      | none => exact nodupKeys_dictSet _ _ _ h

theorem nodupKeys_processOneThermostat (cfg : ManagerConfig) (now : Nat)
    (rl : RoomLookup) (tbl : Table) (r : RawRecord)
    (h : (tbl.map Prod.fst).Nodup) :
    ((processOneThermostat cfg now rl tbl r).map Prod.fst).Nodup := by
  unfold processOneThermostat
  cases r.id with
  | none => exact h
  | some i =>
    dsimp only
    cases dictGet tbl (thermostatKey i) with
    | some d => exact nodupKeys_dictSet _ _ _ h
    | none => exact nodupKeys_dictSet _ _ _ h

theorem nodupKeys_processDevices (cfg : ManagerConfig) (now : Nat)
    (ds : List RawRecord) :
    ∀ tbl, (tbl.map Prod.fst).Nodup →
      ((_process_devices cfg now tbl ds).map Prod.fst).Nodup := by
  induction ds with
  | nil => intro tbl h; exact h
  | cons a t ih =>
    intro tbl h
    exact ih _ (nodupKeys_processOneDevice cfg now tbl a h)

theorem nodupKeys_processSensors (cfg : ManagerConfig) (now : Nat)
    (rl : RoomLookup) (ss : List RawRecord) :
    ∀ tbl, (tbl.map Prod.fst).Nodup →
      ((_process_sensors cfg now rl tbl ss).map Prod.fst).Nodup := by
  induction ss with
  | nil => intro tbl h; exact h
  | cons a t ih =>
    intro tbl h
    exact ih _ (nodupKeys_processOneSensor cfg now rl tbl a h)

theorem nodupKeys_processThermostats (cfg : ManagerConfig) (now : Nat)
    (rl : RoomLookup) (ts : List RawRecord) :
    ∀ tbl, (tbl.map Prod.fst).Nodup →
      ((_process_thermostats cfg now rl tbl ts).map Prod.fst).Nodup := by
  induction ts with
  | nil => intro tbl h; exact h
  | cons a t ih =>
    intro tbl h
    exact ih _ (nodupKeys_processOneThermostat cfg now rl tbl a h)

/-! ### Keys are never removed by the processors -/

theorem isSome_processOneDevice (cfg : ManagerConfig) (now : Nat)
    (tbl : Table) (r : RawRecord) (k : PyStr)
    (h : (dictGet tbl k).isSome) :
    (dictGet (processOneDevice cfg now tbl r) k).isSome := by
  unfold processOneDevice
  cases r.id with
  | none => exact h
  | some i =>
    dsimp only
    by_cases hz : i = 0
    · rw [if_pos hz]; exact h
    · rw [if_neg hz]
      cases dictGet tbl (deviceKey i) with
      | some d => exact dictGet_isSome_dictSet _ _ _ _ h
      | none => exact dictGet_isSome_dictSet _ _ _ _ h

theorem isSome_processOneSensor (cfg : ManagerConfig) (now : Nat)
    (rl : RoomLookup) (tbl : Table) (r : RawRecord) (k : PyStr)
    (h : (dictGet tbl k).isSome) :
    (dictGet (processOneSensor cfg now rl tbl r) k).isSome := by
  unfold processOneSensor
  cases r.id with
  | none => exact h
  | some i =>
    dsimp only
    by_cases hz : i = 0
    · rw [if_pos hz]; exact h
    · rw [if_neg hz]
      cases dictGet tbl (sensorKey i) with
      | some d => exact dictGet_isSome_dictSet _ _ _ _ h
      | none => exact dictGet_isSome_dictSet _ _ _ _ h

theorem isSome_processOneThermostat (cfg : ManagerConfig) (now : Nat)
    (rl : RoomLookup) (tbl : Table) (r : RawRecord) (k : PyStr)
    (h : (dictGet tbl k).isSome) :
    (dictGet (processOneThermostat cfg now rl tbl r) k).isSome := by
  unfold processOneThermostat
  cases r.id with
  | none => exact h
  | some i =>
    dsimp only
    cases dictGet tbl (thermostatKey i) with
    | some d => exact dictGet_isSome_dictSet _ _ _ _ h
    | none => exact dictGet_isSome_dictSet _ _ _ _ h

theorem isSome_processDevices (cfg : ManagerConfig) (now : Nat)
    (ds : List RawRecord) (k : PyStr) :
    ∀ tbl, (dictGet tbl k).isSome →
      (dictGet (_process_devices cfg now tbl ds) k).isSome := by
  induction ds with
  | nil => intro tbl h; exact h
  | cons a t ih =>
    intro tbl h
    exact ih _ (isSome_processOneDevice cfg now tbl a k h)

theorem isSome_processSensors (cfg : ManagerConfig) (now : Nat)
    (rl : RoomLookup) (ss : List RawRecord) (k : PyStr) :
    ∀ tbl, (dictGet tbl k).isSome →
      (dictGet (_process_sensors cfg now rl tbl ss) k).isSome := by
  induction ss with
  | nil => intro tbl h; exact h
  | cons a t ih =>
    intro tbl h
    exact ih _ (isSome_processOneSensor cfg now rl tbl a k h)

theorem isSome_processThermostats (cfg : ManagerConfig) (now : Nat)
    (rl : RoomLookup) (ts : List RawRecord) (k : PyStr) :
    ∀ tbl, (dictGet tbl k).isSome →
      (dictGet (_process_thermostats cfg now rl tbl ts) k).isSome := by
  induction ts with
  | nil => intro tbl h; exact h
  | cons a t ih =>
    intro tbl h
    exact ih _ (isSome_processOneThermostat cfg now rl tbl a k h)

/-! ### Structural lemmas about classification and update -/

theorem classify_eq_update (cfg : ManagerConfig) (d : CrestronDevice) :
    ∃ a b c, _update_ha_parameters cfg d =
      { d with ha_state := a, ha_hidden := b, ha_reason := c } := by
  unfold _update_ha_parameters
  dsimp only
  split_ifs <;> exact ⟨_, _, _, rfl⟩

theorem classify_status (cfg : ManagerConfig) (d : CrestronDevice) :
    (_update_ha_parameters cfg d).status = d.status := by
  obtain ⟨a, b, c, h⟩ := classify_eq_update cfg d
  rw [h]

theorem classify_level (cfg : ManagerConfig) (d : CrestronDevice) :
    (_update_ha_parameters cfg d).level = d.level := by
  obtain ⟨a, b, c, h⟩ := classify_eq_update cfg d
  rw [h]

theorem classify_connection (cfg : ManagerConfig) (d : CrestronDevice) :
    (_update_ha_parameters cfg d).connection = d.connection := by
  obtain ⟨a, b, c, h⟩ := classify_eq_update cfg d
  rw [h]

theorem classify_position (cfg : ManagerConfig) (d : CrestronDevice) :
    (_update_ha_parameters cfg d).position = d.position := by
  obtain ⟨a, b, c, h⟩ := classify_eq_update cfg d
  rw [h]

theorem classify_last_updated (cfg : ManagerConfig) (d : CrestronDevice) :
    (_update_ha_parameters cfg d).last_updated = d.last_updated := by
  obtain ⟨a, b, c, h⟩ := classify_eq_update cfg d
  rw [h]

theorem classify_raw_data (cfg : ManagerConfig) (d : CrestronDevice) :
    (_update_ha_parameters cfg d).raw_data = d.raw_data := by
  obtain ⟨a, b, c, h⟩ := classify_eq_update cfg d
  rw [h]

theorem classify_room (cfg : ManagerConfig) (d : CrestronDevice) :
    (_update_ha_parameters cfg d).room = d.room := by
  obtain ⟨a, b, c, h⟩ := classify_eq_update cfg d
  rw [h]

theorem classify_name (cfg : ManagerConfig) (d : CrestronDevice) :
    (_update_ha_parameters cfg d).name = d.name := by
  obtain ⟨a, b, c, h⟩ := classify_eq_update cfg d
  rw [h]

theorem classify_type (cfg : ManagerConfig) (d : CrestronDevice) :
    (_update_ha_parameters cfg d).type = d.type := by
  obtain ⟨a, b, c, h⟩ := classify_eq_update cfg d
  rw [h]

theorem classify_subtype (cfg : ManagerConfig) (d : CrestronDevice) :
    (_update_ha_parameters cfg d).subtype = d.subtype := by
  obtain ⟨a, b, c, h⟩ := classify_eq_update cfg d
  rw [h]


theorem classify_id (cfg : ManagerConfig) (d : CrestronDevice) :
    (_update_ha_parameters cfg d).id = d.id := by
  obtain ⟨a, b, c, h⟩ := classify_eq_update cfg d
  rw [h]

theorem classify_room_id (cfg : ManagerConfig) (d : CrestronDevice) :
    (_update_ha_parameters cfg d).room_id = d.room_id := by
  obtain ⟨a, b, c, h⟩ := classify_eq_update cfg d
  rw [h]

theorem classify_value (cfg : ManagerConfig) (d : CrestronDevice) :
    (_update_ha_parameters cfg d).value = d.value := by
  obtain ⟨a, b, c, h⟩ := classify_eq_update cfg d
  rw [h]

theorem classify_unit (cfg : ManagerConfig) (d : CrestronDevice) :
    (_update_ha_parameters cfg d).unit = d.unit := by
  obtain ⟨a, b, c, h⟩ := classify_eq_update cfg d
  rw [h]

theorem classify_battery_level (cfg : ManagerConfig) (d : CrestronDevice) :
    (_update_ha_parameters cfg d).battery_level = d.battery_level := by
  obtain ⟨a, b, c, h⟩ := classify_eq_update cfg d
  rw [h]

theorem classify_presence (cfg : ManagerConfig) (d : CrestronDevice) :
    (_update_ha_parameters cfg d).presence = d.presence := by
  obtain ⟨a, b, c, h⟩ := classify_eq_update cfg d
  rw [h]

theorem classify_door_status (cfg : ManagerConfig) (d : CrestronDevice) :
    (_update_ha_parameters cfg d).door_status = d.door_status := by
  obtain ⟨a, b, c, h⟩ := classify_eq_update cfg d
  rw [h]

/-- Characterization of the availability flag written by classification. -/
theorem classify_ha_state (cfg : ManagerConfig) (x : CrestronDevice) :
    (_update_ha_parameters cfg x).ha_state =
      (if _matches_ignored_pattern cfg.ignored_device_names x.full_name x.type then
        none
      else if pyTruthyOpt (_get_ha_device_type x.type x.subtype) &&
          !(decide ((_get_ha_device_type x.type x.subtype).getD [] ∈
            cfg.enabled_device_types)) then
        none
      else if x.connection = "offline".toList then some false
      else some true) := by
  unfold _update_ha_parameters
  dsimp only
  split_ifs <;> rfl

/-- Characterization of the hidden flag written by classification. -/
theorem classify_ha_hidden (cfg : ManagerConfig) (x : CrestronDevice) :
    (_update_ha_parameters cfg x).ha_hidden =
      (if _matches_ignored_pattern cfg.ignored_device_names x.full_name x.type then
        true
      else if pyTruthyOpt (_get_ha_device_type x.type x.subtype) &&
          !(decide ((_get_ha_device_type x.type x.subtype).getD [] ∈
            cfg.enabled_device_types)) then
        true
      else false) := by
  unfold _update_ha_parameters
  dsimp only
  split_ifs <;> rfl

/-- Characterization of the reason string written by classification. -/
theorem classify_ha_reason (cfg : ManagerConfig) (x : CrestronDevice) :
    (_update_ha_parameters cfg x).ha_reason =
      (if _matches_ignored_pattern cfg.ignored_device_names x.full_name x.type then
        "Device hidden by name filter".toList
      else if pyTruthyOpt (_get_ha_device_type x.type x.subtype) &&
          !(decide ((_get_ha_device_type x.type x.subtype).getD [] ∈
            cfg.enabled_device_types)) then
        "Device hidden by category filter".toList
      else if x.connection = "offline".toList then "Device is offline".toList
      else []) := by
  unfold _update_ha_parameters
  dsimp only
  split_ifs <;> rfl

/-- Normal form of the update branch of `_process_devices`. -/
theorem updateDeviceFrom_eq (now : Nat) (r : RawRecord) (d : CrestronDevice) :
    updateDeviceFrom now r d =
      { d with
        status := r.status.getD false,
        level := r.level.getD 0,
        connection :=
          if deviceTypeOf r = "Scene".toList then "n/a".toList
          else r.connectionStatus.getD ("online".toList),
        last_updated := now,
        position :=
          if deviceTypeOf r = "Shade".toList then r.position.getD 0
          else d.position,
        raw_data := r } := by
  unfold updateDeviceFrom
  dsimp only
  split <;> rfl

/-- Classification branch: matched by the ignored-name filter. -/
theorem classify_name_filter (cfg : ManagerConfig) (d : CrestronDevice)
    (h : _matches_ignored_pattern cfg.ignored_device_names d.full_name d.type = true) :
    _update_ha_parameters cfg d =
      { d with ha_hidden := true, ha_state := none,
               ha_reason := "Device hidden by name filter".toList } := by
  unfold _update_ha_parameters
  simp [h]

/-- Classification branch: platform type disabled in the configuration. -/
theorem classify_category_filter (cfg : ManagerConfig) (d : CrestronDevice)
    (h1 : _matches_ignored_pattern cfg.ignored_device_names d.full_name d.type = false)
    (h2 : (pyTruthyOpt (_get_ha_device_type d.type d.subtype) &&
      !(decide ((_get_ha_device_type d.type d.subtype).getD [] ∈
        cfg.enabled_device_types))) = true) :
    _update_ha_parameters cfg d =
      { d with ha_hidden := true, ha_state := none,
               ha_reason := "Device hidden by category filter".toList } := by
  unfold _update_ha_parameters
  simp only [h1, Bool.false_eq_true, if_false, h2, if_true]

/-- Classification branch: visible but offline. -/
theorem classify_offline (cfg : ManagerConfig) (d : CrestronDevice)
    (h1 : _matches_ignored_pattern cfg.ignored_device_names d.full_name d.type = false)
    (h2 : (pyTruthyOpt (_get_ha_device_type d.type d.subtype) &&
      !(decide ((_get_ha_device_type d.type d.subtype).getD [] ∈
        cfg.enabled_device_types))) = false)
    (h3 : d.connection = "offline".toList) :
    _update_ha_parameters cfg d =
      { d with ha_hidden := false, ha_state := some false,
               ha_reason := "Device is offline".toList } := by
  unfold _update_ha_parameters
  simp only [h1, Bool.false_eq_true, if_false, h2]
  rw [if_pos (show ({ d with ha_hidden := false } : CrestronDevice).connection =
    "offline".toList from h3)]

/-- Classification branch: visible and not offline. -/
theorem classify_online (cfg : ManagerConfig) (d : CrestronDevice)
    (h1 : _matches_ignored_pattern cfg.ignored_device_names d.full_name d.type = false)
    (h2 : (pyTruthyOpt (_get_ha_device_type d.type d.subtype) &&
      !(decide ((_get_ha_device_type d.type d.subtype).getD [] ∈
        cfg.enabled_device_types))) = false)
    (h3 : d.connection ≠ "offline".toList) :
    _update_ha_parameters cfg d =
      { d with ha_hidden := false, ha_state := some true, ha_reason := [] } := by
  unfold _update_ha_parameters
  simp only [h1, Bool.false_eq_true, if_false, h2]
  rw [if_neg (show ¬ ({ d with ha_hidden := false } : CrestronDevice).connection =
    "offline".toList from h3)]

/-- A device equal to a classified device except for its timestamp and
derived fields is classified along the same branch. -/
theorem full_name_congr (d e : CrestronDevice) (hr : d.room = e.room)
    (hn : d.name = e.name) : d.full_name = e.full_name := by
  unfold CrestronDevice.full_name
  rw [hr, hn]

/-- Re-classifying a classified device (with only the timestamp changed)
is the identity. -/
theorem classify_stamp_classify (cfg : ManagerConfig) (w : CrestronDevice)
    (n : Nat) :
    _update_ha_parameters cfg { _update_ha_parameters cfg w with last_updated := n } =
      { _update_ha_parameters cfg w with last_updated := n } := by
  set x : CrestronDevice :=
    { _update_ha_parameters cfg w with last_updated := n } with hx
  have hfull : x.full_name = w.full_name :=
    full_name_congr x w (classify_room cfg w) (classify_name cfg w)
  have htype : x.type = w.type := classify_type cfg w
  have hsub : x.subtype = w.subtype := classify_subtype cfg w
  have hconn : x.connection = w.connection := classify_connection cfg w
  have hstate : x.ha_state = (_update_ha_parameters cfg w).ha_state := rfl
  have hhidden : x.ha_hidden = (_update_ha_parameters cfg w).ha_hidden := rfl
  have hreason : x.ha_reason = (_update_ha_parameters cfg w).ha_reason := rfl
  apply CrestronDevice.ext
  · exact classify_id cfg x
  · exact classify_room cfg x
  · exact classify_name cfg x
  · exact classify_type cfg x
  · exact classify_subtype cfg x
  · exact classify_status cfg x
  · exact classify_level cfg x
  · exact classify_connection cfg x
  · exact classify_last_updated cfg x
  · rw [classify_ha_state cfg x, hfull, htype, hsub, hconn, hstate,
      classify_ha_state cfg w]
  · rw [classify_ha_hidden cfg x, hfull, htype, hsub, hhidden,
      classify_ha_hidden cfg w]
  · rw [classify_ha_reason cfg x, hfull, htype, hsub, hconn, hreason,
      classify_ha_reason cfg w]
  · exact classify_room_id cfg x
  · exact classify_position cfg x
  · exact classify_value cfg x
  · exact classify_unit cfg x
  · exact classify_battery_level cfg x
  · exact classify_presence cfg x
  · exact classify_door_status cfg x
  · exact classify_raw_data cfg x

/-! ### Idempotence of the per-record device update -/

/-- Updating a device whose fields already agree with the raw record only
refreshes the timestamp. -/
theorem update_after (n2 : Nat) (r : RawRecord) (d : CrestronDevice)
    (hs : d.status = r.status.getD false)
    (hl : d.level = r.level.getD 0)
    (hc : d.connection =
      (if deviceTypeOf r = "Scene".toList then "n/a".toList
       else r.connectionStatus.getD ("online".toList)))
    (hp : deviceTypeOf r = "Shade".toList → d.position = r.position.getD 0)
    (hraw : d.raw_data = r) :
    updateDeviceFrom n2 r d = { d with last_updated := n2 } := by
  rw [updateDeviceFrom_eq]
  apply CrestronDevice.ext
  · rfl
  · rfl
  · rfl
  · rfl
  · rfl
  · exact hs.symm
  · exact hl.symm
  · exact hc.symm
  · rfl
  · rfl
  · rfl
  · rfl
  · rfl
  · show (if deviceTypeOf r = "Shade".toList then r.position.getD 0
      else d.position) = d.position
    by_cases hsh : deviceTypeOf r = "Shade".toList
    · rw [if_pos hsh, (hp hsh).symm]
    · rw [if_neg hsh]
  · rfl
  · rfl
  · rfl
  · rfl
  · rfl
  · exact hraw.symm

/-- A second update from the same raw record, after classification, only
refreshes the timestamp. -/
theorem update_classify_update (cfg : ManagerConfig) (n1 n2 : Nat)
    (r : RawRecord) (d : CrestronDevice) :
    updateDeviceFrom n2 r (_update_ha_parameters cfg (updateDeviceFrom n1 r d)) =
      { _update_ha_parameters cfg (updateDeviceFrom n1 r d) with
        last_updated := n2 } := by
  apply update_after
  · rw [classify_status, updateDeviceFrom_eq]
  · rw [classify_level, updateDeviceFrom_eq]
  · rw [classify_connection, updateDeviceFrom_eq]
  · intro hsh
    rw [classify_position, updateDeviceFrom_eq]
    show (if deviceTypeOf r = "Shade".toList then r.position.getD 0
      else d.position) = r.position.getD 0
    rw [if_pos hsh]
  · rw [classify_raw_data, updateDeviceFrom_eq]

/-- An update from the raw record a device was created from, after
classification, only refreshes the timestamp. -/
theorem update_classify_create (cfg : ManagerConfig) (n1 n2 : Nat) (i : Int)
    (r : RawRecord) :
    updateDeviceFrom n2 r (_update_ha_parameters cfg (createDeviceFrom n1 i r)) =
      { _update_ha_parameters cfg (createDeviceFrom n1 i r) with
        last_updated := n2 } := by
  apply update_after
  · rw [classify_status]
    rfl
  · rw [classify_level]
    rfl
  · rw [classify_connection]
    rfl
  · intro hsh
    rw [classify_position]
    show (if deviceTypeOf r = "Shade".toList then r.position.getD 0 else 0) =
      r.position.getD 0
    rw [if_pos hsh]
  · rw [classify_raw_data]
    rfl

/-- Processing the same raw record twice yields the first result with a
refreshed timestamp. -/
theorem pval_pval (cfg : ManagerConfig) (n1 n2 : Nat)
    (cur : Option CrestronDevice) (i : Int) (r : RawRecord) :
    pvalDevice cfg n2 (some (pvalDevice cfg n1 cur i r)) i r =
      { pvalDevice cfg n1 cur i r with last_updated := n2 } := by
  cases cur with
  | some d =>
    show _update_ha_parameters cfg (updateDeviceFrom n2 r
      (_update_ha_parameters cfg (updateDeviceFrom n1 r d))) = _
    rw [update_classify_update, classify_stamp_classify]
    rfl
  | none =>
    show _update_ha_parameters cfg (updateDeviceFrom n2 r
      (_update_ha_parameters cfg (createDeviceFrom n1 i r))) = _
    rw [update_classify_create, classify_stamp_classify]
    rfl

/-! ### Unfolding lemmas for a whole poll -/

/-- The device table produced by a successful poll, as a function of the
effective thermostat collection. -/
def pollResultTable (cfg : ManagerConfig) (now : Nat) (st : ManagerState)
    (rooms ds ss tsEff : List RawRecord) : Table :=
  let room_lookup := buildRoomLookup rooms
  let t1 := _process_devices cfg now st.devices ds
  let t2 := _process_sensors cfg now room_lookup t1 ss
  if tsEff.isEmpty then t2
  else _process_thermostats cfg now room_lookup t2 tsEff

/-- A poll whose fetches all succeed processes the three collections in
order and publishes the rebuilt table, snapshot and events. -/
theorem poll_devices_ok (cfg : ManagerConfig) (now : Nat) (st : ManagerState)
    (rooms ds ss ts : List RawRecord) :
    poll_devices cfg now st rooms (.ok ds) (.ok ss) (.ok ts) =
      ({ devices := pollResultTable cfg now st rooms ds ss
          (if DEVICE_TYPE_THERMOSTAT ∈ cfg.enabled_device_types then ts else []),
         room_lookup := buildRoomLookup rooms,
         last_poll_time := some now },
       .ok (buildSnapshot (pollResultTable cfg now st rooms ds ss
            (if DEVICE_TYPE_THERMOSTAT ∈ cfg.enabled_device_types then ts else [])),
          computeEvents (st.devices.map (fun p => (p.1, _device_snapshot_tuple p.2)))
            (st.devices.map (fun p => (p.1, p.2.full_name)))
            (pollResultTable cfg now st rooms ds ss
              (if DEVICE_TYPE_THERMOSTAT ∈ cfg.enabled_device_types then ts
               else [])))) := by
  unfold poll_devices gatherFetches pollResultTable
  by_cases hft : DEVICE_TYPE_THERMOSTAT ∈ cfg.enabled_device_types
  · simp [hft]
  · simp [hft]

/-- A poll whose fan-in fails leaves the manager state untouched and
propagates the error. -/
theorem poll_devices_error (cfg : ManagerConfig) (now : Nat) (st : ManagerState)
    (rooms : List RawRecord)
    (dres sres tres : Except ApiError (List RawRecord)) (e : ApiError)
    (h : gatherFetches (decide (DEVICE_TYPE_THERMOSTAT ∈ cfg.enabled_device_types))
      dres sres tres = .error e) :
    poll_devices cfg now st rooms dres sres tres = (st, .error e) := by
  unfold poll_devices
  dsimp only
  rw [h]

/-! ### Skipping of records without a usable id -/

theorem processOneDevice_skip_none (cfg : ManagerConfig) (now : Nat)
    (tbl : Table) (r : RawRecord) (h : r.id = none) :
    processOneDevice cfg now tbl r = tbl := by
  unfold processOneDevice
  rw [h]

theorem processOneSensor_skip_none (cfg : ManagerConfig) (now : Nat)
    (rl : RoomLookup) (tbl : Table) (r : RawRecord) (h : r.id = none) :
    processOneSensor cfg now rl tbl r = tbl := by
  unfold processOneSensor
  rw [h]

theorem processOneThermostat_skip_none (cfg : ManagerConfig) (now : Nat)
    (rl : RoomLookup) (tbl : Table) (r : RawRecord) (h : r.id = none) :
    processOneThermostat cfg now rl tbl r = tbl := by
  unfold processOneThermostat
  rw [h]

theorem processDevices_filter_isSome (cfg : ManagerConfig) (now : Nat)
    (ds : List RawRecord) :
    ∀ tbl, _process_devices cfg now tbl ds =
      _process_devices cfg now tbl (ds.filter (fun r => r.id.isSome)) := by
  induction ds with
  | nil => intro tbl; rfl
  | cons a t ih =>
    intro tbl
    cases ha : a.id with
    | none =>
      rw [List.filter_cons]
      simp only [ha, Option.isSome_none, Bool.false_eq_true, if_false]
      show _process_devices cfg now (processOneDevice cfg now tbl a) t = _
      rw [processOneDevice_skip_none cfg now tbl a ha]
      exact ih tbl
    | some i =>
      rw [List.filter_cons]
      simp only [ha, Option.isSome_some, if_true]
      show _process_devices cfg now (processOneDevice cfg now tbl a) t =
        _process_devices cfg now (processOneDevice cfg now tbl a)
          (t.filter (fun r => r.id.isSome))
      exact ih _

theorem processSensors_filter_isSome (cfg : ManagerConfig) (now : Nat)
    (rl : RoomLookup) (ss : List RawRecord) :
    ∀ tbl, _process_sensors cfg now rl tbl ss =
      _process_sensors cfg now rl tbl (ss.filter (fun r => r.id.isSome)) := by
  induction ss with
  | nil => intro tbl; rfl
  | cons a t ih =>
    intro tbl
    cases ha : a.id with
    | none =>
      rw [List.filter_cons]
      simp only [ha, Option.isSome_none, Bool.false_eq_true, if_false]
      show _process_sensors cfg now rl (processOneSensor cfg now rl tbl a) t = _
      rw [processOneSensor_skip_none cfg now rl tbl a ha]
      exact ih tbl
    | some i =>
      rw [List.filter_cons]
      simp only [ha, Option.isSome_some, if_true]
      show _process_sensors cfg now rl (processOneSensor cfg now rl tbl a) t =
        _process_sensors cfg now rl (processOneSensor cfg now rl tbl a)
          (t.filter (fun r => r.id.isSome))
      exact ih _

theorem processThermostats_filter_isSome (cfg : ManagerConfig) (now : Nat)
    (rl : RoomLookup) (ts : List RawRecord) :
    ∀ tbl, _process_thermostats cfg now rl tbl ts =
      _process_thermostats cfg now rl tbl (ts.filter (fun r => r.id.isSome)) := by
  induction ts with
  | nil => intro tbl; rfl
  | cons a t ih =>
    intro tbl
    cases ha : a.id with
    | none =>
      rw [List.filter_cons]
      simp only [ha, Option.isSome_none, Bool.false_eq_true, if_false]
      show _process_thermostats cfg now rl (processOneThermostat cfg now rl tbl a) t = _
      rw [processOneThermostat_skip_none cfg now rl tbl a ha]
      exact ih tbl
    | some i =>
      rw [List.filter_cons]
      simp only [ha, Option.isSome_some, if_true]
      show _process_thermostats cfg now rl (processOneThermostat cfg now rl tbl a) t =
        _process_thermostats cfg now rl (processOneThermostat cfg now rl tbl a)
          (t.filter (fun r => r.id.isSome))
      exact ih _

theorem pollResultTable_filter_isSome (cfg : ManagerConfig) (now : Nat)
    (st : ManagerState) (rooms ds ss tsEff : List RawRecord) :
    pollResultTable cfg now st rooms ds ss tsEff =
      pollResultTable cfg now st rooms (ds.filter (fun r => r.id.isSome))
        (ss.filter (fun r => r.id.isSome))
        (tsEff.filter (fun r => r.id.isSome)) := by
  unfold pollResultTable
  dsimp only
  rw [← processDevices_filter_isSome]
  rw [← processSensors_filter_isSome]
  by_cases hfe : (tsEff.filter (fun r => r.id.isSome)).isEmpty
  · rw [if_pos hfe]
    by_cases hte : tsEff.isEmpty
    · rw [if_pos hte]
    · rw [if_neg hte,
        processThermostats_filter_isSome cfg now (buildRoomLookup rooms) tsEff,
        List.isEmpty_iff.mp hfe]
      rfl
  · have hte : ¬ tsEff.isEmpty := by
      intro hte
      rw [List.isEmpty_iff.mp hte] at hfe
      exact hfe rfl
    rw [if_neg hfe, if_neg hte,
      processThermostats_filter_isSome cfg now (buildRoomLookup rooms) tsEff]

/-! ### Claim C2: atomic failure of a poll -/

/-- C2: if any of the concurrently awaited fetches of `poll_devices`
fails (general devices, sensors, or thermostats when enabled), the poll
raises the error and the manager state — in particular the device table —
is exactly what it was before the poll; in particular a failing sensor
fetch after a successful device fetch performs no partial merge. -/
theorem poll_fetch_failure_is_atomic (cfg : ManagerConfig) (now : Nat)
    (st : ManagerState) (rooms : List RawRecord) :
    (∀ dres sres tres e,
      gatherFetches (decide (DEVICE_TYPE_THERMOSTAT ∈ cfg.enabled_device_types))
        dres sres tres = .error e →
      poll_devices cfg now st rooms dres sres tres = (st, .error e)) ∧
    (∀ ds tres e,
      poll_devices cfg now st rooms (.ok ds) (.error e) tres =
        (st, .error e)) := by
  constructor
  · intro dres sres tres e h
    exact poll_devices_error cfg now st rooms dres sres tres e h
  · intro ds tres e
    exact poll_devices_error cfg now st rooms (.ok ds) (.error e) tres e rfl

/-- Witness for C2 at a concrete failing sensor fetch. -/
theorem poll_fetch_failure_is_atomic_witness :
    poll_devices ⟨[], []⟩ 0 initialState []
        (.error ⟨"boom".toList⟩) (.ok []) (.ok []) =
      (initialState, .error ⟨"boom".toList⟩) :=
  (poll_fetch_failure_is_atomic ⟨[], []⟩ 0 initialState []).1
    (.error ⟨"boom".toList⟩) (.ok []) (.ok []) ⟨"boom".toList⟩ rfl

/-! ### Claim C9: records lacking an id are skipped, never fatal -/

/-- C9: a poll on collections containing records without an `id` field
completes (returns a snapshot), and its entire result — state, snapshot
and events — is the same as if those records were not present, so no
entry for such a record appears in the device table or the snapshot. -/
theorem missing_id_records_are_skipped (cfg : ManagerConfig) (now : Nat)
    (st : ManagerState) (rooms ds ss ts : List RawRecord) :
    (∃ st' snap ev, poll_devices cfg now st rooms (.ok ds) (.ok ss) (.ok ts) =
      (st', .ok (snap, ev))) ∧
    poll_devices cfg now st rooms (.ok ds) (.ok ss) (.ok ts) =
      poll_devices cfg now st rooms (.ok (ds.filter (fun r => r.id.isSome)))
        (.ok (ss.filter (fun r => r.id.isSome)))
        (.ok (ts.filter (fun r => r.id.isSome))) := by
  constructor
  · rw [poll_devices_ok]
    exact ⟨_, _, _, rfl⟩
  · rw [poll_devices_ok, poll_devices_ok]
    have hts : (if DEVICE_TYPE_THERMOSTAT ∈ cfg.enabled_device_types then
        ts.filter (fun r => r.id.isSome) else []) =
        (if DEVICE_TYPE_THERMOSTAT ∈ cfg.enabled_device_types then ts
         else []).filter (fun r => r.id.isSome) := by
      by_cases h : DEVICE_TYPE_THERMOSTAT ∈ cfg.enabled_device_types
      · rw [if_pos h, if_pos h]
      · rw [if_neg h, if_neg h]
        rfl
    rw [hts, ← pollResultTable_filter_isSome]

/-! ### Claim C10: asymmetric falsy-id guard -/

/-- C10: a general-device or sensor record with the falsy id `0` is
skipped exactly like one with no id, whereas a thermostat record with id
`0` is processed and stored under the composite key `"thermostat:0"`. -/
theorem falsy_id_guard_asymmetry :
    (∀ (cfg : ManagerConfig) (now : Nat) (tbl : Table) (r : RawRecord)
        (rest : List RawRecord), r.id = some 0 →
      _process_devices cfg now tbl (r :: rest) =
        _process_devices cfg now tbl rest) ∧
    (∀ (cfg : ManagerConfig) (now : Nat) (rl : RoomLookup) (tbl : Table)
        (r : RawRecord) (rest : List RawRecord), r.id = some 0 →
      _process_sensors cfg now rl tbl (r :: rest) =
        _process_sensors cfg now rl tbl rest) ∧
    (∀ (cfg : ManagerConfig) (now : Nat) (rl : RoomLookup) (tbl : Table)
        (t : RawRecord) (rest : List RawRecord), t.id = some 0 →
      (dictGet (_process_thermostats cfg now rl tbl (t :: rest))
        ("thermostat:0".toList)).isSome) ∧
    (∀ (cfg : ManagerConfig) (now : Nat) (rl : RoomLookup) (t : RawRecord),
      t.id = some 0 →
      ∃ d, _process_thermostats cfg now rl [] [t] =
        [("thermostat:0".toList, d)]) := by
  refine ⟨?_, ?_, ?_, ?_⟩
  · intro cfg now tbl r rest h
    show _process_devices cfg now (processOneDevice cfg now tbl r) rest = _
    rw [show processOneDevice cfg now tbl r = tbl by
      unfold processOneDevice; rw [h]; rfl]
  · intro cfg now rl tbl r rest h
    show _process_sensors cfg now rl (processOneSensor cfg now rl tbl r) rest = _
    rw [show processOneSensor cfg now rl tbl r = tbl by
      unfold processOneSensor; rw [h]; rfl]
  · intro cfg now rl tbl t rest h
    show (dictGet (_process_thermostats cfg now rl
      (processOneThermostat cfg now rl tbl t) rest) ("thermostat:0".toList)).isSome
    apply isSome_processThermostats
    have hk : ("thermostat:0".toList : PyStr) = thermostatKey 0 := rfl
    rw [hk]
    unfold processOneThermostat
    rw [h]
    dsimp only
    cases dictGet tbl (thermostatKey 0) with
    | some d =>
      dsimp only
      rw [dictGet_dictSet, if_pos rfl]
      rfl
    | none =>
      dsimp only
      rw [dictGet_dictSet, if_pos rfl]
      rfl
  · intro cfg now rl t h
    refine ⟨_update_ha_parameters cfg
      { id := 0, room := roomNameFromLookup rl t.roomId,
        name := t.name.getD ("Thermostat".toList),
        type := "Thermostat".toList, subtype := "Thermostat".toList,
        connection := t.connectionStatus.getD ("online".toList),
        room_id := t.roomId, raw_data := t, last_updated := now }, ?_⟩
    show processOneThermostat cfg now rl [] t = _
    unfold processOneThermostat
    rw [h]
    rfl

/-- Witness for C10: the guard behaviour at concrete zero-id records. -/
theorem falsy_id_guard_asymmetry_witness :
    _process_devices ⟨[], []⟩ 0 [] [{ id := some 0 }] =
        _process_devices ⟨[], []⟩ 0 [] [] ∧
    _process_sensors ⟨[], []⟩ 0 [] [] [{ id := some 0 }] =
        _process_sensors ⟨[], []⟩ 0 [] [] [] ∧
    (dictGet (_process_thermostats ⟨[], []⟩ 0 [] [] [{ id := some 0 }])
      ("thermostat:0".toList)).isSome ∧
    ∃ d, _process_thermostats ⟨[], []⟩ 0 [] [] [{ id := some 0 }] =
      [("thermostat:0".toList, d)] :=
  ⟨falsy_id_guard_asymmetry.1 ⟨[], []⟩ 0 [] { id := some 0 } [] rfl,
   falsy_id_guard_asymmetry.2.1 ⟨[], []⟩ 0 [] [] { id := some 0 } [] rfl,
   falsy_id_guard_asymmetry.2.2.1 ⟨[], []⟩ 0 [] [] { id := some 0 } [] rfl,
   falsy_id_guard_asymmetry.2.2.2 ⟨[], []⟩ 0 [] { id := some 0 } rfl⟩

/-! ### Claim C1: stale composite keys are never removed (code bug) -/

/-- A concrete two-poll scenario: one dimmer discovered in the first
poll, then absent from the second poll's device collection. -/
def exCfg : ManagerConfig := ⟨[DEVICE_TYPE_LIGHT], []⟩

/-- The raw dimmer record used by the concrete scenarios. -/
def exRecord : RawRecord :=
  { id := some 1, type := some ("Dimmer".toList), name := some ("Lamp".toList),
    roomName := some ("Den".toList) }

/-- First poll: the dimmer is fetched and enters the table. -/
def exPoll1 : ManagerState × Except ApiError (Snapshot × PollEvents) :=
  poll_devices exCfg 0 initialState [] (.ok [exRecord]) (.ok []) (.ok [])

/-- Second poll for C1: the device collection no longer contains the
dimmer. -/
def c1Poll2 : ManagerState × Except ApiError (Snapshot × PollEvents) :=
  poll_devices exCfg 1 exPoll1.1 [] (.ok []) (.ok []) (.ok [])

/-- The events emitted by the second poll of the C1 scenario. -/
def c1Events2 : PollEvents :=
  match c1Poll2.2 with
  | .ok (_, ev) => ev
  | .error _ => ⟨[], [], []⟩

/-- C1 (code bug): after a successful poll in which the previously
present composite key `"device:1"` appears in no fetched collection, the
key is still present in the device table and the removed-device report is
empty — nothing ever deletes stale keys, so the removal branch of the
change detection is unreachable, contradicting the claim that the key is
absent and reported exactly once as removed. -/
theorem stale_key_kept_and_removal_unreported :
    (dictGet c1Poll2.1.devices ("device:1".toList)).isSome = true ∧
    c1Events2.removed = [] := by
  constructor
  · rfl
  · rfl

/-! ### Claim C5: the spec's concrete matcher examples -/

/-- Counterexample for C5: the pattern `%bath%` does match the name
`"Bath House"` (its substring semantics finds `bath` in `bath house`),
contradicting the claimed non-match. -/
theorem percent_bath_matches_bath_house :
    _matches_ignored_pattern ["%bath%".toList] ("Bath House".toList) [] = true := by
  decide

/-- C5 (amended): the spec's concrete matcher examples, with the one
correction that `%bath%` also matches `"Bath House"`. -/
theorem matcher_concrete_examples :
    _matches_ignored_pattern ["%bath%".toList] ("Bathroom Light".toList) [] = true ∧
    _matches_ignored_pattern ["%bath%".toList] ("Hall Bathroom".toList) [] = true ∧
    _matches_ignored_pattern ["%bath%".toList] ("Guest Bathroom".toList) [] = true ∧
    _matches_ignored_pattern ["%bath%".toList] ("Bath House".toList) [] = true ∧
    _matches_ignored_pattern ["bath%".toList] ("Bathroom".toList) [] = true ∧
    _matches_ignored_pattern ["bath%".toList] ("Guest Bathroom".toList) [] = false ∧
    _matches_ignored_pattern ["%room".toList] ("Living Room".toList) [] = true ∧
    _matches_ignored_pattern ["%room".toList] ("Roomy Hall".toList) [] = false := by
  decide

/-! ### Claim C7: the derived full name -/

theorem pyStrip_cons_space (sname : PyStr) :
    pyStrip (' ' :: sname) = pyStrip sname := by
  unfold pyStrip
  rw [List.dropWhile_cons]
  rw [if_pos (by decide : (' ' : Char).isWhitespace = true)]

/-- C7: a device whose name starts with its room name case-insensitively
has `full_name = name.strip()`; every other device has
`full_name = (room + " " + name).strip()`. -/
theorem full_name_cases (d : CrestronDevice) :
    (pyStartsWith (pyLower d.name) (pyLower d.room) = true →
      d.full_name = pyStrip d.name) ∧
    (pyStartsWith (pyLower d.name) (pyLower d.room) = false →
      d.full_name = pyStrip (d.room ++ ' ' :: d.name)) := by
  constructor
  · intro h
    unfold CrestronDevice.full_name
    by_cases hr : d.room.isEmpty
    · rw [if_neg (by simp [hr])]
      rw [List.isEmpty_iff.mp hr]
      rw [List.nil_append, pyStrip_cons_space]
    · rw [if_pos (by simp [h, hr])]
  · intro h
    unfold CrestronDevice.full_name
    rw [if_neg (by rw [h]; simp)]

/-- Witness for C7 at concrete devices for both cases. -/
theorem full_name_cases_witness :
    ({ id := 1, room := "Den".toList, name := "den lamp".toList,
       type := [], subtype := [], last_updated := 0 } :
        CrestronDevice).full_name = pyStrip ("den lamp".toList) ∧
    ({ id := 1, room := "Den".toList, name := "Lamp".toList,
       type := [], subtype := [], last_updated := 0 } :
        CrestronDevice).full_name =
      pyStrip ("Den".toList ++ ' ' :: "Lamp".toList) :=
  ⟨(full_name_cases _).1 (by decide), (full_name_cases _).2 (by decide)⟩

/-! ### Claim C3: classification trichotomy -/

/-- A concrete dimmer in room Den used by the C3 counterexample. -/
def c3Device : CrestronDevice :=
  { id := 1, room := "Den".toList, name := "Lamp".toList,
    type := "Dimmer".toList, subtype := "Dimmer".toList, last_updated := 0 }

/-- Counterexample for C3: a device hidden by the name filter gets the
reason string "Device hidden by name filter", not the claimed
"hidden by name filter". -/
theorem name_filter_reason_differs :
    _matches_ignored_pattern ["%lamp%".toList] c3Device.full_name
      c3Device.type = true ∧
    (_update_ha_parameters ⟨[], ["%lamp%".toList]⟩ c3Device).ha_reason =
      "Device hidden by name filter".toList ∧
    (_update_ha_parameters ⟨[], ["%lamp%".toList]⟩ c3Device).ha_reason ≠
      "hidden by name filter".toList := by
  refine ⟨by decide, by decide, by decide⟩

/-- C3 (amended): classification applies exactly one of three terminal
branches in precedence order — (1) name/type matches an ignored pattern:
hidden, no state, reason "Device hidden by name filter"; (2) else the
device has a mapped platform type that is not enabled: hidden, no state,
reason "Device hidden by category filter", and never available regardless
of connection; (3) else visible, and unavailable with reason
"Device is offline" exactly when connection is offline, otherwise
available with an empty reason. -/
theorem classify_trichotomy (cfg : ManagerConfig) (d : CrestronDevice) :
    (_matches_ignored_pattern cfg.ignored_device_names d.full_name d.type = true →
      (_update_ha_parameters cfg d).ha_hidden = true ∧
      (_update_ha_parameters cfg d).ha_state = none ∧
      (_update_ha_parameters cfg d).ha_reason =
        "Device hidden by name filter".toList) ∧
    (_matches_ignored_pattern cfg.ignored_device_names d.full_name d.type = false →
      (pyTruthyOpt (_get_ha_device_type d.type d.subtype) &&
        !(decide ((_get_ha_device_type d.type d.subtype).getD [] ∈
          cfg.enabled_device_types))) = true →
      (_update_ha_parameters cfg d).ha_hidden = true ∧
      (_update_ha_parameters cfg d).ha_state = none ∧
      (_update_ha_parameters cfg d).ha_reason =
        "Device hidden by category filter".toList ∧
      (_update_ha_parameters cfg d).ha_state ≠ some true) ∧
    (_matches_ignored_pattern cfg.ignored_device_names d.full_name d.type = false →
      (pyTruthyOpt (_get_ha_device_type d.type d.subtype) &&
        !(decide ((_get_ha_device_type d.type d.subtype).getD [] ∈
          cfg.enabled_device_types))) = false →
      (_update_ha_parameters cfg d).ha_hidden = false ∧
      (d.connection = "offline".toList →
        (_update_ha_parameters cfg d).ha_state = some false ∧
        (_update_ha_parameters cfg d).ha_reason = "Device is offline".toList) ∧
      (d.connection ≠ "offline".toList →
        (_update_ha_parameters cfg d).ha_state = some true ∧
        (_update_ha_parameters cfg d).ha_reason = [])) := by
  refine ⟨?_, ?_, ?_⟩
  · intro h
    rw [classify_name_filter cfg d h]
    exact ⟨rfl, rfl, rfl⟩
  · intro h1 h2
    rw [classify_category_filter cfg d h1 h2]
    refine ⟨rfl, rfl, rfl, ?_⟩
    simp
  · intro h1 h2
    refine ⟨?_, ?_, ?_⟩
    · by_cases h3 : d.connection = "offline".toList
      · rw [classify_offline cfg d h1 h2 h3]
      · rw [classify_online cfg d h1 h2 h3]
    · intro h3
      rw [classify_offline cfg d h1 h2 h3]
      exact ⟨rfl, rfl⟩
    · intro h3
      rw [classify_online cfg d h1 h2 h3]
      exact ⟨rfl, rfl⟩

/-- Witness for C3 exercising all three classification branches at
concrete devices. -/
theorem classify_trichotomy_witness :
    (_update_ha_parameters ⟨[], ["%lamp%".toList]⟩ c3Device).ha_reason =
      "Device hidden by name filter".toList ∧
    (_update_ha_parameters ⟨[], []⟩ c3Device).ha_reason =
      "Device hidden by category filter".toList ∧
    (_update_ha_parameters ⟨[DEVICE_TYPE_LIGHT], []⟩ c3Device).ha_state =
      some true := by
  refine ⟨((classify_trichotomy ⟨[], ["%lamp%".toList]⟩ c3Device).1
      (by decide)).2.2, ?_, ?_⟩
  · exact ((classify_trichotomy ⟨[], []⟩ c3Device).2.1
      (by decide) (by decide)).2.2.1
  · exact (((classify_trichotomy ⟨[DEVICE_TYPE_LIGHT], []⟩ c3Device).2.2
      (by decide) (by decide)).2.2 (by decide)).1

/-! ### Claim C8: scene connection sentinel -/

/-- The table built by a successful poll holds, at the key of a valid
general-device record, exactly the processed value of that record
(assuming the fetched device collection has no duplicate keys). -/
theorem pollResultTable_at_deviceKey (cfg : ManagerConfig) (now : Nat)
    (st : ManagerState) (rooms ds ss tsEff : List RawRecord)
    (r : RawRecord) (i : Int)
    (hnodup : (ds.filterMap deviceRecordKey?).Nodup)
    (hr : r ∈ ds) (hid : r.id = some i) (hz : i ≠ 0) :
    dictGet (pollResultTable cfg now st rooms ds ss tsEff) (deviceKey i) =
      some (pvalDevice cfg now (dictGet st.devices (deviceKey i)) i r) := by
  unfold pollResultTable
  dsimp only
  have hsens : ∀ tbl, dictGet (_process_sensors cfg now (buildRoomLookup rooms)
      tbl ss) (deviceKey i) = dictGet tbl (deviceKey i) :=
    dictGet_processSensors_ne cfg now (buildRoomLookup rooms) ss (deviceKey i)
      (fun r' _ => sensorRecordKey_ne_deviceKey r' i)
  have hdev := processDevices_at_key cfg now ds r i hnodup hr hid hz st.devices
  by_cases hemp : tsEff.isEmpty
  · rw [if_pos hemp, hsens, hdev]
  · rw [if_neg hemp,
      dictGet_processThermostats_ne cfg now (buildRoomLookup rooms) tsEff
        (deviceKey i) (fun r' _ => thermostatRecordKey_ne_deviceKey r' i) _,
      hsens, hdev]

/-- For a Scene record, the stored connection is the `n/a` sentinel on
both the create and the update path. -/
theorem pval_connection_scene (cfg : ManagerConfig) (now : Nat)
    (cur : Option CrestronDevice) (i : Int) (r : RawRecord)
    (hscene : deviceTypeOf r = "Scene".toList) :
    (pvalDevice cfg now cur i r).connection = "n/a".toList := by
  cases cur with
  | some d =>
    show (_update_ha_parameters cfg (updateDeviceFrom now r d)).connection = _
    rw [classify_connection, updateDeviceFrom_eq]
    show (if deviceTypeOf r = "Scene".toList then "n/a".toList
      else r.connectionStatus.getD ("online".toList)) = _
    rw [if_pos hscene]
  | none =>
    show (_update_ha_parameters cfg (createDeviceFrom now i r)).connection = _
    rw [classify_connection]
    show (if deviceTypeOf r = "Scene".toList then "n/a".toList
      else r.connectionStatus.getD ("online".toList)) = _
    rw [if_pos hscene]

/-- C8: after every successful poll, the device stored for a raw
general-device record whose working type is Scene has connection `n/a`,
on first creation and on every in-place update, regardless of the
hub-reported connectionStatus. -/
theorem scene_connection_always_na (cfg : ManagerConfig) (now : Nat)
    (st : ManagerState) (rooms ds ss ts : List RawRecord) (r : RawRecord)
    (i : Int) (st' : ManagerState) (snap : Snapshot) (ev : PollEvents)
    (hnodup : (ds.filterMap deviceRecordKey?).Nodup)
    (hr : r ∈ ds) (hid : r.id = some i) (hz : i ≠ 0)
    (hscene : deviceTypeOf r = "Scene".toList)
    (hpoll : poll_devices cfg now st rooms (.ok ds) (.ok ss) (.ok ts) =
      (st', .ok (snap, ev))) :
    ∃ v, dictGet st'.devices (deviceKey i) = some v ∧
      v.connection = "n/a".toList := by
  rw [poll_devices_ok] at hpoll
  have hdevs : st'.devices = pollResultTable cfg now st rooms ds ss
      (if DEVICE_TYPE_THERMOSTAT ∈ cfg.enabled_device_types then ts else []) :=
    (congrArg (fun p => p.1.devices) hpoll).symm
  refine ⟨pvalDevice cfg now (dictGet st.devices (deviceKey i)) i r, ?_,
    pval_connection_scene cfg now _ i r hscene⟩
  rw [hdevs]
  exact pollResultTable_at_deviceKey cfg now st rooms ds ss _ r i hnodup hr hid hz

/-- The scene record of the C8 witness scenario. -/
def c8Record : RawRecord :=
  { id := some 7, type := some ("Scene".toList), name := some ("Movie".toList),
    connectionStatus := some ("offline".toList) }

/-- The C8 witness poll: one scene record, hub-reported offline. -/
def c8Poll : ManagerState × Except ApiError (Snapshot × PollEvents) :=
  poll_devices exCfg 0 initialState [] (.ok [c8Record]) (.ok []) (.ok [])

/-- Witness for C8: the concrete scene device is stored with connection
`n/a` even though the hub reported `offline`. -/
theorem scene_connection_always_na_witness :
    ∃ v, dictGet c8Poll.1.devices (deviceKey 7) = some v ∧
      v.connection = "n/a".toList :=
  scene_connection_always_na exCfg 0 initialState [] [c8Record] [] []
    c8Record 7 c8Poll.1
    (buildSnapshot (pollResultTable exCfg 0 initialState [] [c8Record] [] []))
    (computeEvents [] [] (pollResultTable exCfg 0 initialState [] [c8Record] [] []))
    (by decide) (List.mem_singleton.mpr rfl) rfl (by decide) (by decide) rfl

/-! ### Claim C6: round-trip of an unchanged raw record -/

/-- Second poll for C6: the same dimmer record is re-fetched unchanged at
a later poll time. -/
def c6Poll2 : ManagerState × Except ApiError (Snapshot × PollEvents) :=
  poll_devices exCfg 1 exPoll1.1 [] (.ok [exRecord]) (.ok []) (.ok [])

/-- Counterexample for C6: re-fetching the unchanged record does not
yield an identical Device — the stored value differs between the two
polls (its `last_updated` timestamp is refreshed). -/
theorem refetched_device_not_identical :
    dictGet c6Poll2.1.devices ("device:1".toList) ≠
      dictGet exPoll1.1.devices ("device:1".toList) := by
  decide

theorem nodupKeys_pollResultTable (cfg : ManagerConfig) (now : Nat)
    (st : ManagerState) (rooms ds ss tsEff : List RawRecord)
    (h : (st.devices.map Prod.fst).Nodup) :
    ((pollResultTable cfg now st rooms ds ss tsEff).map Prod.fst).Nodup := by
  unfold pollResultTable
  dsimp only
  by_cases hemp : tsEff.isEmpty
  · rw [if_pos hemp]
    exact nodupKeys_processSensors cfg now _ ss _
      (nodupKeys_processDevices cfg now ds _ h)
  · rw [if_neg hemp]
    exact nodupKeys_processThermostats cfg now _ tsEff _
      (nodupKeys_processSensors cfg now _ ss _
        (nodupKeys_processDevices cfg now ds _ h))

/-- A key whose change-detection tuple equals its pre-poll tuple is not
reported as changed. -/
theorem not_mem_changed (prev_snapshot :
      List (PyStr × (Bool × Int × Int × PyStr × PyStr × PyStr)))
    (prev_names : List (PyStr × PyStr)) (tbl : Table) (k : PyStr)
    (v : CrestronDevice)
    (hnodup : (tbl.map Prod.fst).Nodup)
    (hget : dictGet tbl k = some v)
    (hprev : dictGet prev_snapshot k = some (_device_snapshot_tuple v)) :
    k ∉ (computeEvents prev_snapshot prev_names tbl).changed := by
  unfold computeEvents
  by_cases hemp : prev_snapshot.isEmpty
  · rw [if_pos hemp]
    simp
  · rw [if_neg hemp]
    dsimp only
    intro hmem
    obtain ⟨p, hp, hpk⟩ := List.mem_map.mp hmem
    obtain ⟨hptbl, hP⟩ := List.mem_filter.mp hp
    have hpget : dictGet tbl p.1 = some p.2 := by
      apply dictGet_of_mem_nodup tbl p.1 p.2 hnodup
      cases p
      exact hptbl
    rw [hpk] at hpget
    rw [hget] at hpget
    have hv : p.2 = v := (Option.some.inj hpget).symm
    rw [hpk, hprev, hv] at hP
    simp at hP

/-- C6 (amended): a device present in poll N whose raw record is
re-fetched unchanged in poll N+1 — while the rest of the fetched
collections, and the room list, may change arbitrarily — yields the same
stored Device except that its `last_updated` timestamp is refreshed to
the new poll time; its change-detection tuple is unchanged and the
device is not reported as changed by poll N+1's diff.  (Assumes the
table keys and the fetched device collections are duplicate free, as a
real hub collection is.) -/
theorem round_trip_device_modulo_timestamp (cfg : ManagerConfig)
    (n1 n2 : Nat) (st0 : ManagerState)
    (rooms1 ds1 ss1 ts1 rooms2 ds2 ss2 ts2 : List RawRecord)
    (r : RawRecord) (i : Int) (st1 st2 : ManagerState)
    (snap1 snap2 : Snapshot) (ev1 ev2 : PollEvents)
    (hkeys : (st0.devices.map Prod.fst).Nodup)
    (hnodup1 : (ds1.filterMap deviceRecordKey?).Nodup)
    (hnodup2 : (ds2.filterMap deviceRecordKey?).Nodup)
    (hr1 : r ∈ ds1) (hr2 : r ∈ ds2) (hid : r.id = some i) (hz : i ≠ 0)
    (h1 : poll_devices cfg n1 st0 rooms1 (.ok ds1) (.ok ss1) (.ok ts1) =
      (st1, .ok (snap1, ev1)))
    (h2 : poll_devices cfg n2 st1 rooms2 (.ok ds2) (.ok ss2) (.ok ts2) =
      (st2, .ok (snap2, ev2))) :
    ∃ v, dictGet st1.devices (deviceKey i) = some v ∧
      dictGet st2.devices (deviceKey i) =
        some { v with last_updated := n2 } ∧
      _device_snapshot_tuple { v with last_updated := n2 } =
        _device_snapshot_tuple v ∧
      deviceKey i ∉ ev2.changed := by
  rw [poll_devices_ok] at h1 h2
  have hdev1 : st1.devices = pollResultTable cfg n1 st0 rooms1 ds1 ss1
      (if DEVICE_TYPE_THERMOSTAT ∈ cfg.enabled_device_types then ts1 else []) :=
    (congrArg (fun p => p.1.devices) h1).symm
  have hdev2 : st2.devices = pollResultTable cfg n2 st1 rooms2 ds2 ss2
      (if DEVICE_TYPE_THERMOSTAT ∈ cfg.enabled_device_types then ts2 else []) :=
    (congrArg (fun p => p.1.devices) h2).symm
  have hev2 : computeEvents
      (st1.devices.map (fun p => (p.1, _device_snapshot_tuple p.2)))
      (st1.devices.map (fun p => (p.1, p.2.full_name)))
      (pollResultTable cfg n2 st1 rooms2 ds2 ss2
        (if DEVICE_TYPE_THERMOSTAT ∈ cfg.enabled_device_types then ts2
         else [])) = ev2 :=
    congrArg Prod.snd (Except.ok.inj (congrArg Prod.snd h2))
  have hv1 : dictGet st1.devices (deviceKey i) =
      some (pvalDevice cfg n1 (dictGet st0.devices (deviceKey i)) i r) := by
    rw [hdev1]
    exact pollResultTable_at_deviceKey cfg n1 st0 rooms1 ds1 ss1 _ r i
      hnodup1 hr1 hid hz
  have hv2 : dictGet st2.devices (deviceKey i) =
      some { pvalDevice cfg n1 (dictGet st0.devices (deviceKey i)) i r with
        last_updated := n2 } := by
    rw [hdev2, pollResultTable_at_deviceKey cfg n2 st1 rooms2 ds2 ss2 _ r i
      hnodup2 hr2 hid hz, hv1, pval_pval]
  refine ⟨pvalDevice cfg n1 (dictGet st0.devices (deviceKey i)) i r,
    hv1, hv2, rfl, ?_⟩
  rw [← hev2]
  apply not_mem_changed _ _ _ _
    ({ pvalDevice cfg n1 (dictGet st0.devices (deviceKey i)) i r with
      last_updated := n2 })
  · apply nodupKeys_pollResultTable
    rw [hdev1]
    exact nodupKeys_pollResultTable cfg n1 st0 rooms1 ds1 ss1 _ hkeys
  · rw [← hdev2]
    exact hv2
  · rw [dictGet_map_value, hv1]
    rfl

/-- First-poll events of the C6 witness scenario. -/
def c6Ev1 : PollEvents :=
  match exPoll1.2 with
  | .ok (_, ev) => ev
  | .error _ => ⟨[], [], []⟩

/-- First-poll snapshot of the C6 witness scenario. -/
def c6Snap1 : Snapshot :=
  match exPoll1.2 with
  | .ok (snap, _) => snap
  | .error _ => []

/-- A second, different device that only appears in the second poll of
the C6 witness scenario. -/
def c6Record2 : RawRecord :=
  { id := some 2, type := some ("Switch".toList), name := some ("Fan".toList),
    roomName := some ("Den".toList) }

/-- Second witness poll for C6: the dimmer record re-fetched unchanged,
while the device collection also contains a newly discovered switch. -/
def c6Poll2b : ManagerState × Except ApiError (Snapshot × PollEvents) :=
  poll_devices exCfg 1 exPoll1.1 [] (.ok [exRecord, c6Record2]) (.ok [])
    (.ok [])

/-- Second-poll events of the C6 witness scenario. -/
def c6Ev2b : PollEvents :=
  match c6Poll2b.2 with
  | .ok (_, ev) => ev
  | .error _ => ⟨[], [], []⟩

/-- Second-poll snapshot of the C6 witness scenario. -/
def c6Snap2b : Snapshot :=
  match c6Poll2b.2 with
  | .ok (snap, _) => snap
  | .error _ => []

/-- Witness for C6 on a concrete two-poll scenario whose second poll
fetches a different device collection (the unchanged dimmer plus a new
switch). -/
theorem round_trip_device_modulo_timestamp_witness :
    ∃ v, dictGet exPoll1.1.devices (deviceKey 1) = some v ∧
      dictGet c6Poll2b.1.devices (deviceKey 1) =
        some { v with last_updated := 1 } ∧
      _device_snapshot_tuple { v with last_updated := 1 } =
        _device_snapshot_tuple v ∧
      deviceKey 1 ∉ c6Ev2b.changed :=
  round_trip_device_modulo_timestamp exCfg 0 1 initialState
    [] [exRecord] [] [] [] [exRecord, c6Record2] [] []
    exRecord 1 exPoll1.1 c6Poll2b.1 c6Snap1 c6Snap2b c6Ev1 c6Ev2b
    (by decide) (by decide) (by decide)
    (List.mem_singleton.mpr rfl) (List.mem_cons_self exRecord [c6Record2])
    rfl (by decide) rfl rfl

/-! ### Claim C4: pattern matcher semantics -/

theorem char_toNat_ofNat (n : Nat) (h : n < 55296) :
    (Char.ofNat n).toNat = n := by
  unfold Char.ofNat
  rw [dif_pos (Or.inl h : Nat.isValidChar n)]
  rfl

/-- Lowercasing maps only `%` to `%`. -/
theorem toLower_eq_percent (c : Char) (h : Char.toLower c = '%') :
    c = '%' := by
  unfold Char.toLower at h
  dsimp only at h
  by_cases hrange : c.toNat ≥ 65 ∧ c.toNat ≤ 90
  · rw [if_pos hrange] at h
    exfalso
    have h37 : (Char.ofNat (c.toNat + 32)).toNat = ('%' : Char).toNat := by
      rw [h]
    rw [char_toNat_ofNat (c.toNat + 32) (by omega)] at h37
    have h2 : ('%' : Char).toNat = 37 := rfl
    omega
  · rw [if_neg hrange] at h
    exact h

theorem toLower_ne_percent (c : Char) (h : c ≠ '%') :
    Char.toLower c ≠ '%' :=
  fun hl => h (toLower_eq_percent c hl)

theorem pyLower_append (a b : PyStr) :
    pyLower (a ++ b) = pyLower a ++ pyLower b :=
  List.map_append Char.toLower a b

theorem pyLower_cons (c : Char) (l : PyStr) :
    pyLower (c :: l) = Char.toLower c :: pyLower l := rfl

theorem pyStartsWith_nil_right (s : PyStr) : pyStartsWith s [] = true := by
  cases s <;> rfl

theorem pyStartsWith_cons_cons (c p : Char) (s ps : PyStr) :
    pyStartsWith (c :: s) (p :: ps) = ((c == p) && pyStartsWith s ps) := rfl

/-- A string whose characters are all different from `%` does not start
with `%`. -/
theorem no_percent_startsWith (l : PyStr) (h : ∀ c ∈ l, c ≠ '%') :
    pyStartsWith l ['%'] = false := by
  cases l with
  | nil => rfl
  | cons c t =>
    rw [pyStartsWith_cons_cons]
    have : (c == '%') = false := by
      simp [h c (List.mem_cons_self c t)]
    rw [this]
    rfl

theorem percent_startsWith (l : PyStr) :
    pyStartsWith ('%' :: l) ['%'] = true := by
  rw [pyStartsWith_cons_cons, pyStartsWith_nil_right]
  rfl

theorem pyEndsWith_concat_percent (l : PyStr) :
    pyEndsWith (l ++ ['%']) ['%'] = true := by
  unfold pyEndsWith
  rw [List.reverse_append]
  exact percent_startsWith l.reverse

theorem pyEndsWith_concat_no_percent (l : PyStr) (c : Char) (h : c ≠ '%') :
    pyEndsWith (l ++ [c]) ['%'] = false := by
  unfold pyEndsWith
  rw [List.reverse_append]
  show pyStartsWith (c :: l.reverse) ['%'] = false
  rw [pyStartsWith_cons_cons]
  have : (c == '%') = false := by simp [h]
  rw [this]
  rfl

theorem pyEndsWith_no_percent (l : PyStr) (h : ∀ c ∈ l, c ≠ '%') :
    pyEndsWith l ['%'] = false := by
  unfold pyEndsWith
  apply no_percent_startsWith
  intro c hc
  exact h c (List.mem_reverse.mp hc)

theorem dropLast_concat_eq (l : PyStr) (c : Char) : (l ++ [c]).dropLast = l :=
  List.dropLast_concat

theorem matchesOne_congr (n t p p' : PyStr) (h : pyLower p = pyLower p') :
    matchesOnePattern n t p = matchesOnePattern n t p' := by
  unfold matchesOnePattern
  rw [h]

theorem matches_eq_any (pats : List PyStr) (n t : PyStr) :
    _matches_ignored_pattern pats n t =
      pats.any (matchesOnePattern (pyLower n) (pyLower t)) := by
  cases pats with
  | nil => rfl
  | cons a l => rfl

/-- A pattern bracketed by `%` on both ends is a substring match on the
bracketed middle. -/
theorem matchesOne_substring (n t mid : PyStr) :
    matchesOnePattern n t ('%' :: (mid ++ ['%'])) =
      (listContains n (pyLower mid) || listContains t (pyLower mid)) := by
  unfold matchesOnePattern
  dsimp only
  have hp : pyLower ('%' :: (mid ++ ['%'])) = '%' :: (pyLower mid ++ ['%']) := by
    rw [pyLower_cons, pyLower_append]
    rfl
  rw [hp]
  have hend : pyEndsWith ('%' :: (pyLower mid ++ ['%'])) ['%'] = true :=
    pyEndsWith_concat_percent ('%' :: pyLower mid)
  simp [percent_startsWith, hend, dropLast_concat_eq]

/-- A pattern with a leading `%` only is a suffix match on its tail. -/
theorem matchesOne_suffix (n t rest : PyStr) (c : Char) (hc : c ≠ '%') :
    matchesOnePattern n t ('%' :: (rest ++ [c])) =
      (pyEndsWith n (pyLower (rest ++ [c])) ||
       pyEndsWith t (pyLower (rest ++ [c]))) := by
  unfold matchesOnePattern
  dsimp only
  have hp : pyLower ('%' :: (rest ++ [c])) =
      '%' :: (pyLower rest ++ [Char.toLower c]) := by
    rw [pyLower_cons, pyLower_append]
    rfl
  have hrhs : pyLower (rest ++ [c]) = pyLower rest ++ [Char.toLower c] := by
    rw [pyLower_append]
    rfl
  rw [hp, hrhs]
  have hend : pyEndsWith ('%' :: (pyLower rest ++ [Char.toLower c])) ['%'] =
      false :=
    pyEndsWith_concat_no_percent ('%' :: pyLower rest) (Char.toLower c)
      (toLower_ne_percent c hc)
  simp [percent_startsWith, hend]

/-- A pattern with a trailing `%` only is a prefix match on its front. -/
theorem matchesOne_prematch (n t front : PyStr) (c : Char) (hc : c ≠ '%') :
    matchesOnePattern n t ((c :: front) ++ ['%']) =
      (pyStartsWith n (pyLower (c :: front)) ||
       pyStartsWith t (pyLower (c :: front))) := by
  unfold matchesOnePattern
  dsimp only
  have hp : pyLower ((c :: front) ++ ['%']) =
      Char.toLower c :: (pyLower front ++ ['%']) := by
    rw [pyLower_append, pyLower_cons]
    rfl
  have hrhs : pyLower (c :: front) = Char.toLower c :: pyLower front := rfl
  rw [hp, hrhs]
  have hstart : pyStartsWith (Char.toLower c :: (pyLower front ++ ['%']))
      ['%'] = false := by
    rw [pyStartsWith_cons_cons]
    have hb : (Char.toLower c == '%') = false := by
      simp [toLower_ne_percent c hc]
    rw [hb]
    rfl
  have hend : pyEndsWith (Char.toLower c :: (pyLower front ++ ['%']))
      ['%'] = true := pyEndsWith_concat_percent (Char.toLower c :: pyLower front)
  have hdl : (Char.toLower c :: (pyLower front ++ ['%'])).dropLast =
      Char.toLower c :: pyLower front :=
    dropLast_concat_eq (Char.toLower c :: pyLower front) '%'
  simp [hstart, hend, hdl]

/-- A pattern containing no `%` at all is an exact match. -/
theorem matchesOne_exact (n t p : PyStr) (hp : ∀ c ∈ p, c ≠ '%') :
    matchesOnePattern n t p = (n == pyLower p || t == pyLower p) := by
  unfold matchesOnePattern
  dsimp only
  have hlow : ∀ c ∈ pyLower p, c ≠ '%' := by
    intro c hc
    obtain ⟨c0, hc0, rfl⟩ := List.mem_map.mp hc
    exact toLower_ne_percent c0 (hp c0 hc0)
  have hstart := no_percent_startsWith _ hlow
  have hend := pyEndsWith_no_percent _ hlow
  simp [hstart, hend]

theorem any_congr_lower (n t : PyStr) (pats : List PyStr) :
    ∀ pats' : List PyStr, pats.map pyLower = pats'.map pyLower →
      pats.any (matchesOnePattern n t) = pats'.any (matchesOnePattern n t) := by
  induction pats with
  | nil =>
    intro pats' h
    have : pats' = [] := List.map_eq_nil_iff.mp h.symm
    rw [this]
  | cons a l ih =>
    intro pats' h
    cases pats' with
    | nil => simp at h
    | cons a' l' =>
      rw [List.map_cons, List.map_cons] at h
      have h1 := (List.cons.injEq _ _ _ _).mp h
      rw [List.any_cons, List.any_cons, matchesOne_congr n t a a' h1.1,
        ih l' h1.2]

/-- C4: the ignored-pattern matcher is case-insensitive (it depends only
on the lowercased patterns, name and type), checks name and type
independently, ORs over all configured patterns (empty list never
matches), and each pattern follows the `%`-wildcard semantics: `%mid%`
is a substring match, a leading-only `%` is a suffix match, a
trailing-only `%` is a prefix match, and a `%`-free pattern is an exact
match. -/
theorem pattern_matcher_semantics :
    (∀ name ty : PyStr, _matches_ignored_pattern [] name ty = false) ∧
    (∀ (pats : List PyStr) (name ty : PyStr),
      _matches_ignored_pattern pats name ty =
        pats.any (matchesOnePattern (pyLower name) (pyLower ty))) ∧
    (∀ (pats pats' : List PyStr) (name name' ty ty' : PyStr),
      pats.map pyLower = pats'.map pyLower → pyLower name = pyLower name' →
      pyLower ty = pyLower ty' →
      _matches_ignored_pattern pats name ty =
        _matches_ignored_pattern pats' name' ty') ∧
    (∀ (name ty mid : PyStr),
      _matches_ignored_pattern ['%' :: (mid ++ ['%'])] name ty =
        (listContains (pyLower name) (pyLower mid) ||
         listContains (pyLower ty) (pyLower mid))) ∧
    (∀ (name ty rest : PyStr) (c : Char), c ≠ '%' →
      _matches_ignored_pattern ['%' :: (rest ++ [c])] name ty =
        (pyEndsWith (pyLower name) (pyLower (rest ++ [c])) ||
         pyEndsWith (pyLower ty) (pyLower (rest ++ [c])))) ∧
    (∀ (name ty front : PyStr) (c : Char), c ≠ '%' →
      _matches_ignored_pattern [(c :: front) ++ ['%']] name ty =
        (pyStartsWith (pyLower name) (pyLower (c :: front)) ||
         pyStartsWith (pyLower ty) (pyLower (c :: front)))) ∧
    (∀ (name ty p : PyStr), (∀ c ∈ p, c ≠ '%') →
      _matches_ignored_pattern [p] name ty =
        (pyLower name == pyLower p || pyLower ty == pyLower p)) := by
  refine ⟨?_, ?_, ?_, ?_, ?_, ?_, ?_⟩
  · intro name ty
    rfl
  · intro pats name ty
    exact matches_eq_any pats name ty
  · intro pats pats' name name' ty ty' hmap hn ht
    rw [matches_eq_any, matches_eq_any, hn, ht]
    exact any_congr_lower (pyLower name') (pyLower ty') pats pats' hmap
  · intro name ty mid
    rw [matches_eq_any, List.any_cons, List.any_nil, Bool.or_false,
      matchesOne_substring]
  · intro name ty rest c hc
    rw [matches_eq_any, List.any_cons, List.any_nil, Bool.or_false,
      matchesOne_suffix _ _ rest c hc]
  · intro name ty front c hc
    rw [matches_eq_any, List.any_cons, List.any_nil, Bool.or_false,
      matchesOne_prematch _ _ front c hc]
  · intro name ty p hp
    rw [matches_eq_any, List.any_cons, List.any_nil, Bool.or_false,
      matchesOne_exact _ _ p hp]

/-- Witness for C4 at concrete patterns of each of the four shapes, plus
case-insensitivity. -/
theorem pattern_matcher_semantics_witness :
    (_matches_ignored_pattern ['%' :: ("roo".toList ++ ['m'])]
        ("Living Room".toList) [] =
      (pyEndsWith (pyLower ("Living Room".toList))
          (pyLower ("roo".toList ++ ['m'])) ||
       pyEndsWith (pyLower ([] : PyStr)) (pyLower ("roo".toList ++ ['m'])))) ∧
    (_matches_ignored_pattern [('b' :: "ath".toList) ++ ['%']]
        ("Bathroom".toList) [] =
      (pyStartsWith (pyLower ("Bathroom".toList))
          (pyLower ('b' :: "ath".toList)) ||
       pyStartsWith (pyLower ([] : PyStr)) (pyLower ('b' :: "ath".toList)))) ∧
    (_matches_ignored_pattern ["kitchen".toList] ("Kitchen".toList) [] =
      (pyLower ("Kitchen".toList) == pyLower ("kitchen".toList) ||
       pyLower ([] : PyStr) == pyLower ("kitchen".toList))) ∧
    (_matches_ignored_pattern ["%BATH%".toList] ("bathroom".toList) [] =
      _matches_ignored_pattern ["%bath%".toList] ("Bathroom".toList) []) :=
  ⟨pattern_matcher_semantics.2.2.2.2.1 ("Living Room".toList) []
      ("roo".toList) 'm' (by decide),
   pattern_matcher_semantics.2.2.2.2.2.1 ("Bathroom".toList) []
      ("ath".toList) 'b' (by decide),
   pattern_matcher_semantics.2.2.2.2.2.2 ("Kitchen".toList) []
      ("kitchen".toList) (by decide),
   pattern_matcher_semantics.2.2.1 ["%BATH%".toList] ["%bath%".toList]
      ("bathroom".toList) ("Bathroom".toList) [] []
      (by decide) (by decide) (by decide)⟩

end CrestronHome
